import Mathlib

set_option maxRecDepth 100000

/-!
Verification development for `scripts/add_swift_file.py`, a script that inserts
a new source-file reference into an Xcode `project.pbxproj` manifest by pure
text substitution.  The script is embedded shallowly: the manifest content is a
`List Char`, Python's `str.replace` / `in` / `rstrip` / the two `re.search`
patterns are modelled by executable Lean functions with the same semantics on
the concrete patterns used by the script, and the script's file-system writes
are modelled as an explicit event trace.
-/

namespace Sortir

/-- Manifest text and all other strings are modelled as lists of characters. -/
abbrev Str := List Char

/-- Python `\s` / `str.isspace` for the ASCII range (the only characters the
script's fixed patterns can meet around its fixed anchors). -/
def isWS (c : Char) : Bool :=
  c = ' ' || c = '\t' || c = '\n' || c = '\r' || c = '\x0b' || c = '\x0c'

/-- Python `str.rstrip()`: remove trailing whitespace. -/
def rstrip (s : Str) : Str := (s.reverse.dropWhile isWS).reverse

/-- Python's substring test `pat in s`. -/
def isSubstr (pat : Str) : Str → Bool
  | [] => pat.isPrefixOf []
  | c :: t => pat.isPrefixOf (c :: t) || isSubstr pat t

/-- Occurrence test: `pat` occurs in `s` starting at index `i`. -/
def occursAt (pat s : Str) (i : Nat) : Bool := pat.isPrefixOf (s.drop i)

/-- No occurrence of `pat` in `s` starts at an index `< n`. -/
def noEarlyB (pat : Str) (n : Nat) (s : Str) : Bool :=
  (List.range n).all fun i => ! occursAt pat s i

/-- Python `s.replace(pat, rep)`: replace all non-overlapping occurrences,
scanning left to right (faithful for the non-empty patterns the script uses). -/
def replaceAll (pat rep : Str) : Str → Str
  | [] => []
  | c :: t =>
    if pat.isPrefixOf (c :: t) then rep ++ replaceAll pat rep (t.drop (pat.length - 1))
    else c :: replaceAll pat rep t
termination_by s => s.length
decreasing_by
  · simp only [List.length_drop, List.length_cons]; omega
  · simp only [List.length_cons]; omega

/-- Python `s.count(pat)` -- the number of occurrences `s.replace` rewrites
(non-overlapping, left to right), used to state how many copies get inserted. -/
def countOccur (pat : Str) : Str → Nat
  | [] => 0
  | c :: t =>
    if pat.isPrefixOf (c :: t) then 1 + countOccur pat (t.drop (pat.length - 1))
    else countOccur pat t
termination_by s => s.length
decreasing_by
  · simp only [List.length_drop, List.length_cons]; omega
  · simp only [List.length_cons]; omega

/-- Match a literal at the head of `s`, returning the remainder. -/
def dropPre (pat s : Str) : Option Str :=
  if pat.isPrefixOf s then some (s.drop pat.length) else none

/-! ## The script's fixed data -/

/-- Mirror of `GROUP_IDS` from the script: the fixed group-name to group-identifier map. -/
def GROUP_IDS : List (Str × Str) :=
  [("Models".data, "228C21072ED56D9100F0ACD5".data),
   ("Views".data, "228C21172ED56D9100F0ACD5".data),
   ("ViewModels".data, "228C21112ED56D9100F0ACD5".data),
   ("Services".data, "228C210D2ED56D9100F0ACD5".data),
   ("Components".data, "228C21142ED56D9100F0ACD5".data)]

/-- Path constant `PBXPROJ`: the manifest's fixed path (the project-relative part; the
absolute prefix computed from `__file__` plays no role in any claim). -/
def PBXPROJ : Str := "Flipix/Flipix.xcodeproj/project.pbxproj".data

/-- Backup path, `backup_path = PBXPROJ + ".backup"` (line 61 of the script). -/
def backup_path : Str := PBXPROJ ++ ".backup".data

/-- The sentinel line closing the PBXFileReference section. -/
def endFileRefMarker : Str := "/* End PBXFileReference section */".data

/-- The sentinel line closing the PBXBuildFile section. -/
def endBuildFileMarker : Str := "/* End PBXBuildFile section */".data

/-! ## `generate_id` -/

/-- Python `string.hexdigits`. -/
def hexdigits : Str := "0123456789abcdefABCDEF".data

/-- ASCII `str.upper` on one character. -/
def upperChar (c : Char) : Char :=
  if 'a' ≤ c && c ≤ 'z' then Char.ofNat (c.toNat - 32) else c

/-- Value of `string.hexdigits.upper()[:16]` -- the alphabet `generate_id` draws from. -/
def idAlphabet : Str := (hexdigits.map upperChar).take 16

/-- Model of `generate_id()`: 24 draws of `random.choice(chars)`; the random source is
modelled as a stream `r` of naturals, each draw taking `r i` modulo the
alphabet size (the default `'A'` of `getD` is unreachable since the alphabet
is non-empty). -/
def generate_id (r : Nat → Nat) : Str :=
  (List.range 24).map fun i => idAlphabet.getD (r i % idAlphabet.length) 'A'

/-! ## The two `re.search` patterns

`pattern` (step 7): `({gid} /\* {grp} \*/ = \{\s*isa = PBXGroup;\s*children = \()([^)]*?)(\);)`.
At a given start position the match is deterministic: each `\s*` is followed by
a non-whitespace literal character, so it must consume exactly the maximal
whitespace run, and `[^)]*?\);` succeeds iff the character after the first
`)` is `;` (a longer candidate for group 2 would have to contain `)`).
`re.search` tries start positions left to right. -/

/-- The literal head of the step-7 pattern: `{gid} /* {grp} */ = {`. -/
def gl1 (gid grp : Str) : Str := gid ++ " /* ".data ++ grp ++ " */ = \x7b".data

def pbxGroupLit : Str := "isa = PBXGroup;".data

def childrenLit : Str := "children = (".data

/-- Attempt the step-7 pattern anchored at the start of `s`.  On success the
result `(p, g2, rest)` satisfies `s = p ++ g2 ++ rest`: `p` is the matched
group 1, `g2` the matched group 2 (`[^)]*?`), and `rest` starts with `);`
(group 3 plus the unexamined tail). -/
def matchGroupHere (gid grp s : Str) : Option (Str × Str × Str) :=
  match dropPre (gl1 gid grp) s with
  | none => none
  | some s1 =>
    let w1 := s1.takeWhile isWS
    match dropPre pbxGroupLit (s1.dropWhile isWS) with
    | none => none
    | some s3 =>
      let w2 := s3.takeWhile isWS
      match dropPre childrenLit (s3.dropWhile isWS) with
      | none => none
      | some s5 =>
        let g2 := s5.takeWhile (fun c => c != ')')
        match s5.dropWhile (fun c => c != ')') with
        | ')' :: ';' :: r =>
          some (gl1 gid grp ++ w1 ++ pbxGroupLit ++ w2 ++ childrenLit, g2, ')' :: ';' :: r)
        | _ => none

/-- Model of `re.search(pattern, content)` for the step-7 pattern: leftmost match,
returned as the decomposition `content = pre ++ g2 ++ rest` where `pre` ends
with the matched group 1 (so `pre` is `content[:match.start(2)]`, `g2` is
`match.group(2)` and `rest` is `content[match.end(2):]`). -/
def searchGroup (gid grp : Str) : Str → Option (Str × Str × Str)
  | [] => none
  | c :: t =>
    match matchGroupHere gid grp (c :: t) with
    | some r => some r
    | none => (searchGroup gid grp t).map fun r => (c :: r.1, r.2.1, r.2.2)

/-- The literal head of the step-8 pattern: the fixed Sources-phase id. -/
def sl1 : Str := "0B1A00271A2A3A4A5A6A7A8A /* Sources */ = \x7b".data

def sourcesPhaseLit : Str := "isa = PBXSourcesBuildPhase;".data

def filesLit : Str := "files = (".data

/-- The `.*?files = \(([^)]*?)\);` tail of the step-8 pattern (DOTALL): try
successive positions for `files = (` (shortest `.*?` first, retrying on
failure of the `[^)]*?\);` part, as the regex engine backtracks).  On success
`(mid, g2, rest)` satisfies `s = mid ++ g2 ++ rest` with `mid` ending in
`files = (` and `rest` starting with `);`. -/
def matchFilesFrom : Str → Option (Str × Str × Str)
  | [] => none
  | c :: t =>
    match dropPre filesLit (c :: t) with
    | some s4 =>
      let g2 := s4.takeWhile (fun x => x != ')')
      (match s4.dropWhile (fun x => x != ')') with
       | ')' :: ';' :: r => some (filesLit, g2, ')' :: ';' :: r)
       | _ => (matchFilesFrom t).map fun r => (c :: r.1, r.2.1, r.2.2))
    | none => (matchFilesFrom t).map fun r => (c :: r.1, r.2.1, r.2.2)

/-- Attempt the step-8 pattern anchored at the start of `s`. -/
def matchSourcesHere (s : Str) : Option (Str × Str × Str) :=
  match dropPre sl1 s with
  | none => none
  | some s1 =>
    let w1 := s1.takeWhile isWS
    match dropPre sourcesPhaseLit (s1.dropWhile isWS) with
    | none => none
    | some s3 =>
      (matchFilesFrom s3).map fun r => (sl1 ++ w1 ++ sourcesPhaseLit ++ r.1, r.2.1, r.2.2)

/-- Model of `re.search(sources_pattern, content, re.DOTALL)`: leftmost match, as the
decomposition `content = pre ++ g2 ++ rest`. -/
def searchSources : Str → Option (Str × Str × Str)
  | [] => none
  | c :: t =>
    match matchSourcesHere (c :: t) with
    | some r => some r
    | none => (searchSources t).map fun r => (c :: r.1, r.2.1, r.2.2)

/-! ## The four editing steps of `add_file_to_project` -/

/-- The `path = {filename};` probe of the duplicate check (line 56). -/
def pathSeg (filename : Str) : Str := "path = ".data ++ filename ++ ";".data

/-- The PBXFileReference entry line built on line 67. -/
def fileref_entry (filename frid : Str) : Str :=
  "\t\t".data ++ frid ++ " /* ".data ++ filename
    ++ " */ = \x7bisa = PBXFileReference; lastKnownFileType = sourcecode.swift; path = ".data
    ++ filename ++ "; sourceTree = \"<group>\"; \x7d;\n".data

/-- The PBXBuildFile entry line built on line 74. -/
def buildfile_entry (filename frid bfid : Str) : Str :=
  "\t\t".data ++ bfid ++ " /* ".data ++ filename
    ++ " in Sources */ = \x7bisa = PBXBuildFile; fileRef = ".data
    ++ frid ++ " /* ".data ++ filename ++ " */; \x7d;\n".data

/-- Step 5: insert the file-reference entry before every occurrence of the
PBXFileReference sentinel (a `str.replace`, hence replace-all). -/
def fileRefStep (filename frid c : Str) : Str :=
  replaceAll endFileRefMarker (fileref_entry filename frid ++ endFileRefMarker) c

/-- Step 6: insert the build-file entry before every occurrence of the
PBXBuildFile sentinel. -/
def buildFileStep (filename frid bfid c : Str) : Str :=
  replaceAll endBuildFileMarker (buildfile_entry filename frid bfid ++ endBuildFileMarker) c

/-- The child line appended to the group's children list (line 88). -/
def childLine (filename frid : Str) : Str :=
  "\n\t\t\t\t".data ++ frid ++ " /* ".data ++ filename ++ " */,".data

/-- Step 7: splice the child line into the group's children list if the
pattern matches; silently do nothing otherwise (lines 83-89). -/
def groupStep (gid grp filename frid c : Str) : Str :=
  match searchGroup gid grp c with
  | some (pre, g2, rest) => pre ++ (rstrip g2 ++ childLine filename frid) ++ "\n\t\t\t".data ++ rest
  | none => c

/-- The entry line appended to the Sources phase's files list (line 98). -/
def sourcesLine (filename bfid : Str) : Str :=
  "\n\t\t\t\t".data ++ bfid ++ " /* ".data ++ filename ++ " in Sources */,".data

/-- Step 8: splice the entry into the Sources phase's files list if the
pattern matches; silently do nothing otherwise (lines 93-99). -/
def sourcesStep (filename bfid c : Str) : Str :=
  match searchSources c with
  | some (pre, g2, rest) => pre ++ (rstrip g2 ++ sourcesLine filename bfid) ++ "\n\t\t\t".data ++ rest
  | none => c

/-! ## The whole function and the CLI entry point -/

/-- A file-system write performed by the script (the only two files it ever
writes; reads are modelled by passing the manifest content in). -/
inductive FsEvent
  | writeBackup (content : Str)
  | writeManifest (content : Str)
deriving DecidableEq, Repr

/-- The two files the script touches. -/
structure FsState where
  manifest : Str
  backup : Option Str
deriving DecidableEq, Repr

def applyEvent (st : FsState) : FsEvent → FsState
  | .writeBackup c => { st with backup := some c }
  | .writeManifest c => { st with manifest := c }

def applyEvents (st : FsState) (es : List FsEvent) : FsState := es.foldl applyEvent st

/-- Result of one `add_file_to_project` call: the returned boolean, the lines
printed to stdout, and the file writes in order. -/
structure RunResult where
  success : Bool
  output : List Str
  events : List FsEvent
deriving DecidableEq, Repr

def validGroupsLine : Str :=
  "Valid groups: Models, Views, ViewModels, Services, Components".data

/-- Model of `add_file_to_project(filename, group)`.  `r` is the random stream;
the first `generate_id()` call consumes draws `0..23`, the second draws
`24..47`.  `content` is what reading `PBXPROJ` returns. -/
def add_file_to_project (r : Nat → Nat) (filename grp content : Str) : RunResult :=
  match GROUP_IDS.find? (fun p => p.1 == grp) with
  | none =>
    { success := false
      output := ["Error: Unknown group \x27".data ++ grp ++ "\x27".data, validGroupsLine]
      events := [] }
  | some pr =>
    let group_id := pr.2
    let fileref_id := generate_id r
    let buildfile_id := generate_id fun i => r (24 + i)
    let header : List Str :=
      ["Adding ".data ++ filename ++ " to ".data ++ grp ++ "...".data,
       "FileRef ID: ".data ++ fileref_id,
       "BuildFile ID: ".data ++ buildfile_id]
    if isSubstr (pathSeg filename) content then
      { success := false
        output := header ++ ["Error: ".data ++ filename ++ " already exists in project!".data]
        events := [] }
    else
      let c1 := fileRefStep filename fileref_id content
      let c2 := buildFileStep filename fileref_id buildfile_id c1
      let c3 := groupStep group_id grp filename fileref_id c2
      let c4 := sourcesStep filename buildfile_id c3
      { success := true
        output := header ++
          ["Backup saved to: ".data ++ backup_path,
           "Successfully added ".data ++ filename ++ " to ".data ++ grp ++ "!".data]
        events := [FsEvent.writeBackup content, FsEvent.writeManifest c4] }

/-- The module docstring, printed by `main` on insufficient arguments. -/
def usage_doc : Str :=
  ("\nAdd Swift files to the Flipix Xcode project.\n\nUsage: python3 add_swift_file.py <filename> <group>\n\nGroups: Models, Views, ViewModels, Services, Components\n\nExample: python3 add_swift_file.py MyNewView.swift Views\n").data

def warnLine : Str := "Warning: File doesn\x27t have .swift extension".data

/-- Model of `main()`: returns the process exit status, the stdout lines, and the file
writes.  `argv` includes the program name at index 0. -/
def main (r : Nat → Nat) (argv : List Str) (content : Str) : Nat × List Str × List FsEvent :=
  if argv.length < 3 then (1, [usage_doc], [])
  else
    let filename := argv.getD 1 []
    let grp := argv.getD 2 []
    let warn : List Str := if (".swift".data).isSuffixOf filename then [] else [warnLine]
    let res := add_file_to_project r filename grp content
    (if res.success then 0 else 1, warn ++ res.output, res.events)

/-- Separated join, `sepJoin m [c0, ..., cn] = c0 ++ m ++ c1 ++ m ++ ... ++ m ++ cn`: a text
in which the marker `m` occurs (at least) `n` times. -/
def sepJoin (m : Str) : List Str → Str
  | [] => []
  | [c] => c
  | c :: rest => c ++ m ++ sepJoin m rest

/-- The segments create no further occurrence of `m`: no occurrence starts
inside a segment (also not one overlapping into the following separator). -/
def cleanSegs (m : Str) : List Str → Bool
  | [] => true
  | [c] => ! isSubstr m c
  | c :: rest => noEarlyB m c.length (c ++ m ++ sepJoin m rest) && cleanSegs m rest

/-- The manifest tail from the group declaration on: the group declaration
(children list `g2`), then the Sources build phase (files list `f2`). -/
def pbxTail (c d e2 g2 f2 w1 w2 v1 mid gid grp : Str) : Str :=
  c ++ (gl1 gid grp ++ (w1 ++ (pbxGroupLit ++ (w2 ++ (childrenLit ++ (g2 ++ ')' :: ';'
    :: (d ++ (sl1 ++ (v1 ++ (sourcesPhaseLit ++ (mid ++ (filesLit
    ++ (f2 ++ ')' :: ';' :: e2)))))))))))))

/-- A manifest carrying each of the four required markers/patterns exactly
once, in the order they appear in a real `project.pbxproj`: the PBXBuildFile
sentinel, the PBXFileReference sentinel, the group declaration, the Sources
build phase. -/
def pbxShape (a b c d e2 g2 f2 w1 w2 v1 mid gid grp : Str) : Str :=
  a ++ (endBuildFileMarker ++ (b ++ (endFileRefMarker
    ++ pbxTail c d e2 g2 f2 w1 w2 v1 mid gid grp)))

/-- The tail of the edited manifest from the PBXFileReference sentinel on:
the child line has been appended last in the group's children list and the
build-file line last in the Sources files list. -/
def pbxEditedTail (c d e2 g2 f2 w1 w2 v1 mid gid grp fn frid bfid : Str) : Str :=
  endFileRefMarker ++ (c ++ (gl1 gid grp ++ (w1 ++ (pbxGroupLit ++ (w2 ++ (childrenLit
    ++ ((rstrip g2 ++ childLine fn frid ++ "\n\t\t\t".data) ++ ')' :: ';'
    :: (d ++ (sl1 ++ (v1 ++ (sourcesPhaseLit ++ (mid ++ (filesLit
    ++ ((rstrip f2 ++ sourcesLine fn bfid ++ "\n\t\t\t".data)
      ++ ')' :: ';' :: e2))))))))))))))

/-- The expected result of a successful run on `pbxShape`: one build-file
entry before the PBXBuildFile sentinel, one file-reference entry before the
PBXFileReference sentinel, the child line appended last in the group's
children list, the build-file line appended last in the Sources files list. -/
def pbxShapeEdited (a b c d e2 g2 f2 w1 w2 v1 mid gid grp fn frid bfid : Str) : Str :=
  a ++ (buildfile_entry fn frid bfid ++ (endBuildFileMarker ++ (b ++ (fileref_entry fn frid
    ++ pbxEditedTail c d e2 g2 f2 w1 w2 v1 mid gid grp fn frid bfid))))

/-- The manifest on disk after a run, starting from content `orig`. -/
def writtenManifest (res : RunResult) (orig : Str) : Str :=
  (applyEvents ⟨orig, none⟩ res.events).manifest

/-- A manifest that contains all four required markers/patterns but carries
the PBXFileReference sentinel twice. -/
def cxManifest : Str :=
  "q\n".data ++ endBuildFileMarker ++ "\n".data ++ endFileRefMarker
    ++ "\nmid\n".data ++ endFileRefMarker ++ "\n".data
    ++ ("228C21072ED56D9100F0ACD5 /* Models */ = \x7bisa = PBXGroup;children = (a);\n0B1A00271A2A3A4A5A6A7A8A /* Sources */ = \x7bisa = PBXSourcesBuildPhase;files = (b);\n").data

/-! ## Basic lemmas about the string primitives -/

theorem dropPre_append (pat t : Str) : dropPre pat (pat ++ t) = some t := by
  simp [dropPre, List.isPrefixOf_iff_prefix, List.prefix_append]

theorem dropPre_of_neg (pat s : Str) (h : pat.isPrefixOf s = false) : dropPre pat s = none := by
  simp [dropPre, h]

theorem span_false_head (p : Char → Bool) (w : Str) (c : Char) (r : Str)
    (hw : w.all p = true) (hc : p c = false) :
    (w ++ c :: r).takeWhile p = w ∧ (w ++ c :: r).dropWhile p = c :: r := by
  induction w with
  | nil => simp [List.takeWhile_cons, List.dropWhile_cons, hc]
  | cons a w ih =>
    simp only [List.all_cons, Bool.and_eq_true] at hw
    have := ih hw.2
    simp [List.takeWhile_cons, List.dropWhile_cons, hw.1, this.1, this.2]

theorem replaceAll_cons_neg (pat rep : Str) (c : Char) (t : Str)
    (h : pat.isPrefixOf (c :: t) = false) :
    replaceAll pat rep (c :: t) = c :: replaceAll pat rep t := by
  rw [replaceAll, h]; simp

theorem replaceAll_head (pat rep b : Str) (hp : pat ≠ []) :
    replaceAll pat rep (pat ++ b) = rep ++ replaceAll pat rep b := by
  match pat, hp with
  | p :: pt, _ =>
    rw [List.cons_append, replaceAll]
    have hpre : (p :: pt).isPrefixOf (p :: (pt ++ b)) = true := by
      rw [List.isPrefixOf_iff_prefix, ← List.cons_append]
      exact List.prefix_append _ _
    rw [hpre]
    simp [List.drop_left]

theorem replaceAll_skip (pat rep a t : Str)
    (h : ∀ i, i < a.length → pat.isPrefixOf ((a ++ t).drop i) = false) :
    replaceAll pat rep (a ++ t) = a ++ replaceAll pat rep t := by
  induction a with
  | nil => simp
  | cons c a ih =>
    have h0 : pat.isPrefixOf (c :: (a ++ t)) = false := by
      have := h 0 (by simp); simpa using this
    rw [List.cons_append, replaceAll_cons_neg _ _ _ _ h0]
    rw [ih fun i hi => by simpa using h (i + 1) (by simpa using Nat.succ_lt_succ hi)]
    simp

theorem isSubstr_cons (pat : Str) (c : Char) (t : Str) :
    isSubstr pat (c :: t) = (pat.isPrefixOf (c :: t) || isSubstr pat t) := rfl

theorem replaceAll_of_not_sub (pat rep s : Str) (h : isSubstr pat s = false) :
    replaceAll pat rep s = s := by
  induction s with
  | nil => rw [replaceAll]
  | cons c t ih =>
    rw [isSubstr_cons, Bool.or_eq_false_iff] at h
    rw [replaceAll_cons_neg _ _ _ _ h.1, ih h.2]

theorem countOccur_cons_neg (pat : Str) (c : Char) (t : Str)
    (h : pat.isPrefixOf (c :: t) = false) :
    countOccur pat (c :: t) = countOccur pat t := by
  rw [countOccur, h]; simp

theorem countOccur_head (pat b : Str) (hp : pat ≠ []) :
    countOccur pat (pat ++ b) = 1 + countOccur pat b := by
  match pat, hp with
  | p :: pt, _ =>
    rw [List.cons_append, countOccur]
    have hpre : (p :: pt).isPrefixOf (p :: (pt ++ b)) = true := by
      rw [List.isPrefixOf_iff_prefix, ← List.cons_append]
      exact List.prefix_append _ _
    rw [hpre]
    simp [List.drop_left]

theorem countOccur_skip (pat a t : Str)
    (h : ∀ i, i < a.length → pat.isPrefixOf ((a ++ t).drop i) = false) :
    countOccur pat (a ++ t) = countOccur pat t := by
  induction a with
  | nil => simp
  | cons c a ih =>
    have h0 : pat.isPrefixOf (c :: (a ++ t)) = false := by
      have := h 0 (by simp); simpa using this
    rw [List.cons_append, countOccur_cons_neg _ _ _ h0]
    exact ih fun i hi => by simpa using h (i + 1) (by simpa using Nat.succ_lt_succ hi)

theorem countOccur_of_not_sub (pat s : Str) (h : isSubstr pat s = false) :
    countOccur pat s = 0 := by
  induction s with
  | nil => rw [countOccur]
  | cons c t ih =>
    rw [isSubstr_cons, Bool.or_eq_false_iff] at h
    rw [countOccur_cons_neg _ _ _ h.1, ih h.2]

theorem isSubstr_spec (pat s : Str) : isSubstr pat s = true ↔ pat <:+: s := by
  induction s with
  | nil =>
    constructor
    · intro h
      have : pat = [] := by
        cases pat with
        | nil => rfl
        | cons p pt => simp [isSubstr] at h
      simp [this]
    · intro h
      have : pat = [] := List.eq_nil_of_infix_nil h
      simp [this, isSubstr]
  | cons c t ih =>
    rw [isSubstr_cons, Bool.or_eq_true, ih, List.isPrefixOf_iff_prefix]
    exact (List.infix_cons_iff).symm

theorem isSubstr_append_mid (pat x y : Str) : isSubstr pat (x ++ pat ++ y) = true := by
  rw [isSubstr_spec]
  exact ⟨x, y, by simp⟩

theorem isSubstr_of_part (inner pat s : Str) (x y : Str) (hpat : pat = x ++ inner ++ y)
    (h : isSubstr inner s = false) : isSubstr pat s = false := by
  by_contra hne
  rw [Bool.not_eq_false, isSubstr_spec] at hne
  rw [← Bool.not_eq_true, isSubstr_spec] at h
  apply h
  have h1 : inner <:+: pat := by rw [hpat]; exact ⟨x, y, by simp⟩
  exact h1.trans hne

theorem noEarlyB_iff (pat : Str) (n : Nat) (s : Str) :
    noEarlyB pat n s = true ↔ ∀ i, i < n → pat.isPrefixOf (s.drop i) = false := by
  simp [noEarlyB, occursAt, List.all_eq_true, List.mem_range]

/-- Locality: `isPrefixOf` only inspects the first `pat.length` characters. -/
theorem isPrefixOf_eq_take (pat t : Str) :
    pat.isPrefixOf t = pat.isPrefixOf (t.take pat.length) := by
  induction pat generalizing t with
  | nil => simp
  | cons p pt ih =>
    cases t with
    | nil => simp
    | cons a t =>
      simp only [List.length_cons, List.take_succ_cons]
      show (p == a && pt.isPrefixOf t) = (p == a && pt.isPrefixOf (t.take pt.length))
      rw [ih]

/-- Two strings agreeing on their first `n` characters agree on any prefix
test whose window `[i, i + pat.length)` lies below `n`. -/
theorem isPrefixOf_drop_congr (pat s₁ s₂ : Str) (i n : Nat)
    (hn : i + pat.length ≤ n) (h : s₁.take n = s₂.take n) :
    pat.isPrefixOf (s₁.drop i) = pat.isPrefixOf (s₂.drop i) := by
  have e : ∀ s : Str, ((s.take n).drop i).take pat.length = (s.drop i).take pat.length := by
    intro s
    rw [List.drop_take, List.take_take]
    congr 1
    omega
  rw [isPrefixOf_eq_take pat (s₁.drop i), isPrefixOf_eq_take pat (s₂.drop i),
    ← e s₁, ← e s₂, h]

/-- Decomposition: `rstrip` splits off a trailing all-whitespace run. -/
theorem rstrip_decomp (s : Str) :
    s = rstrip s ++ (s.reverse.takeWhile isWS).reverse
    ∧ ((s.reverse.takeWhile isWS).reverse).all isWS = true := by
  constructor
  · conv_lhs => rw [← List.reverse_reverse s, ← List.takeWhile_append_dropWhile isWS s.reverse]
    rw [List.reverse_append]
    rfl
  · rw [List.all_eq_true]
    intro x hx
    rw [List.mem_reverse] at hx
    exact List.mem_takeWhile_imp hx

theorem all_rstrip (p : Char → Bool) (s : Str) (h : s.all p = true) :
    (rstrip s).all p = true := by
  rw [(rstrip_decomp s).1, List.all_append, Bool.and_eq_true] at h
  exact h.1

/-! ## Lemmas about the two pattern matchers -/

/-- Skipping a maximal whitespace run and then a literal that starts with a
non-whitespace character (the deterministic reading of `\s*<literal>`). -/
theorem span_drop_lit (w lit rest2 : Str) (c : Char) (lt : Str)
    (hlit : lit = c :: lt) (hw : w.all isWS = true) (hc : isWS c = false) :
    ((w ++ (lit ++ rest2)).takeWhile isWS = w)
    ∧ (dropPre lit ((w ++ (lit ++ rest2)).dropWhile isWS) = some rest2) := by
  have hasc : w ++ (lit ++ rest2) = w ++ c :: (lt ++ rest2) := by rw [hlit]; simp
  have h := span_false_head isWS w c (lt ++ rest2) hw hc
  refine ⟨by rw [hasc, h.1], ?_⟩
  rw [hasc, h.2]
  have : c :: (lt ++ rest2) = lit ++ rest2 := by rw [hlit]; simp
  rw [this, dropPre_append]

theorem matchGroupHere_build (gid grp w1 w2 g2 r : Str)
    (hw1 : w1.all isWS = true) (hw2 : w2.all isWS = true)
    (hg2 : g2.all (fun c => c != ')') = true) :
    matchGroupHere gid grp
      (gl1 gid grp ++ (w1 ++ (pbxGroupLit ++ (w2 ++ (childrenLit ++ (g2 ++ ')' :: ';' :: r))))))
      = some (gl1 gid grp ++ w1 ++ pbxGroupLit ++ w2 ++ childrenLit, g2, ')' :: ';' :: r) := by
  have s1 := span_drop_lit w1 pbxGroupLit (w2 ++ (childrenLit ++ (g2 ++ ')' :: ';' :: r)))
    'i' "sa = PBXGroup;".data rfl hw1 (by decide)
  have s2 := span_drop_lit w2 childrenLit (g2 ++ ')' :: ';' :: r)
    'c' "hildren = (".data rfl hw2 (by decide)
  have s3 := span_false_head (fun c => c != ')') g2 ')' (';' :: r) hg2 (by decide)
  unfold matchGroupHere
  rw [dropPre_append]
  simp only [s1.1, s1.2, s2.1, s2.2, s3.1, s3.2]

theorem matchGroupHere_of_neg (gid grp s : Str)
    (h : (gl1 gid grp).isPrefixOf s = false) : matchGroupHere gid grp s = none := by
  unfold matchGroupHere
  rw [dropPre_of_neg _ _ h]

theorem gl1_isPrefixOf_nil (gid grp : Str) : (gl1 gid grp).isPrefixOf ([] : Str) = false := by
  apply List.isPrefixOf_length_pos_nil
  have : (" /* ".data).length = 4 := rfl
  simp [gl1, List.length_append, this]

theorem searchGroup_found (gid grp a t p g2 rest : Str)
    (ha : ∀ i, i < a.length → (gl1 gid grp).isPrefixOf ((a ++ t).drop i) = false)
    (hm : matchGroupHere gid grp t = some (p, g2, rest)) :
    searchGroup gid grp (a ++ t) = some (a ++ p, g2, rest) := by
  induction a with
  | nil =>
    cases t with
    | nil => rw [matchGroupHere_of_neg _ _ _ (gl1_isPrefixOf_nil gid grp)] at hm; cases hm
    | cons c t' => simp [searchGroup, hm]
  | cons c a ih =>
    have h0 : matchGroupHere gid grp (c :: (a ++ t)) = none := by
      apply matchGroupHere_of_neg
      have := ha 0 (by simp)
      simpa using this
    have ih' := ih fun i hi => by
      simpa using ha (i + 1) (by simpa using Nat.succ_lt_succ hi)
    rw [List.cons_append, searchGroup, h0, ih']
    rfl

theorem matchFilesFrom_build (mid f2 r : Str)
    (hmid : ∀ i, i < mid.length →
      filesLit.isPrefixOf ((mid ++ (filesLit ++ (f2 ++ ')' :: ';' :: r))).drop i) = false)
    (hf2 : f2.all (fun c => c != ')') = true) :
    matchFilesFrom (mid ++ (filesLit ++ (f2 ++ ')' :: ';' :: r)))
      = some (mid ++ filesLit, f2, ')' :: ';' :: r) := by
  induction mid with
  | nil =>
    have s3 := span_false_head (fun c => c != ')') f2 ')' (';' :: r) hf2 (by decide)
    have e : filesLit ++ (f2 ++ ')' :: ';' :: r)
        = 'f' :: ("iles = (".data ++ (f2 ++ ')' :: ';' :: r)) := rfl
    simp only [List.nil_append]
    rw [e, matchFilesFrom, ← e, dropPre_append]
    simp only [s3.1, s3.2]
  | cons c midt ih =>
    have h0 : filesLit.isPrefixOf (c :: (midt ++ (filesLit ++ (f2 ++ ')' :: ';' :: r)))) = false := by
      have := hmid 0 (by simp)
      simpa using this
    have ih' := ih fun i hi => by
      simpa using hmid (i + 1) (by simpa using Nat.succ_lt_succ hi)
    rw [List.cons_append, matchFilesFrom, dropPre_of_neg _ _ h0, ih']
    rfl

theorem matchSourcesHere_build (v1 mid f2 r : Str) (hv1 : v1.all isWS = true)
    (hmid : ∀ i, i < mid.length →
      filesLit.isPrefixOf ((mid ++ (filesLit ++ (f2 ++ ')' :: ';' :: r))).drop i) = false)
    (hf2 : f2.all (fun c => c != ')') = true) :
    matchSourcesHere
      (sl1 ++ (v1 ++ (sourcesPhaseLit ++ (mid ++ (filesLit ++ (f2 ++ ')' :: ';' :: r))))))
      = some (sl1 ++ v1 ++ sourcesPhaseLit ++ (mid ++ filesLit), f2, ')' :: ';' :: r) := by
  have s1 := span_drop_lit v1 sourcesPhaseLit (mid ++ (filesLit ++ (f2 ++ ')' :: ';' :: r)))
    'i' "sa = PBXSourcesBuildPhase;".data rfl hv1 (by decide)
  unfold matchSourcesHere
  rw [dropPre_append]
  simp only [s1.1, s1.2]
  rw [matchFilesFrom_build mid f2 r hmid hf2]
  rfl

theorem matchSourcesHere_of_neg (s : Str) (h : sl1.isPrefixOf s = false) :
    matchSourcesHere s = none := by
  unfold matchSourcesHere
  rw [dropPre_of_neg _ _ h]

theorem searchSources_found (a t p g2 rest : Str)
    (ha : ∀ i, i < a.length → sl1.isPrefixOf ((a ++ t).drop i) = false)
    (hm : matchSourcesHere t = some (p, g2, rest)) :
    searchSources (a ++ t) = some (a ++ p, g2, rest) := by
  induction a with
  | nil =>
    cases t with
    | nil => rw [matchSourcesHere_of_neg _ (by decide)] at hm; cases hm
    | cons c t' => simp [searchSources, hm]
  | cons c a ih =>
    have h0 : matchSourcesHere (c :: (a ++ t)) = none := by
      apply matchSourcesHere_of_neg
      have := ha 0 (by simp)
      simpa using this
    have ih' := ih fun i hi => by
      simpa using ha (i + 1) (by simpa using Nat.succ_lt_succ hi)
    rw [List.cons_append, searchSources, h0, ih']
    rfl

theorem groupStep_eq (gid grp fn frid c pre g2 rest : Str)
    (h : searchGroup gid grp c = some (pre, g2, rest)) :
    groupStep gid grp fn frid c
      = pre ++ (rstrip g2 ++ childLine fn frid) ++ "\n\t\t\t".data ++ rest := by
  unfold groupStep
  rw [h]

theorem groupStep_none (gid grp fn frid c : Str) (h : searchGroup gid grp c = none) :
    groupStep gid grp fn frid c = c := by
  unfold groupStep
  rw [h]

theorem sourcesStep_eq (fn bfid c pre g2 rest : Str)
    (h : searchSources c = some (pre, g2, rest)) :
    sourcesStep fn bfid c
      = pre ++ (rstrip g2 ++ sourcesLine fn bfid) ++ "\n\t\t\t".data ++ rest := by
  unfold sourcesStep
  rw [h]

theorem sourcesStep_none (fn bfid c : Str) (h : searchSources c = none) :
    sourcesStep fn bfid c = c := by
  unfold sourcesStep
  rw [h]

/-! ## Characterization of the three control paths of `add_file_to_project` -/

theorem add_file_unknown_eq (r : Nat → Nat) (fn grp content : Str)
    (hg : GROUP_IDS.find? (fun p => p.1 == grp) = none) :
    add_file_to_project r fn grp content =
      { success := false
        output := ["Error: Unknown group \x27".data ++ grp ++ "\x27".data, validGroupsLine]
        events := [] } := by
  unfold add_file_to_project
  rw [hg]

theorem add_file_dup_eq (r : Nat → Nat) (fn grp content : Str) (pr : Str × Str)
    (hg : GROUP_IDS.find? (fun p => p.1 == grp) = some pr)
    (hd : isSubstr (pathSeg fn) content = true) :
    add_file_to_project r fn grp content =
      { success := false
        output := ["Adding ".data ++ fn ++ " to ".data ++ grp ++ "...".data,
                   "FileRef ID: ".data ++ generate_id r,
                   "BuildFile ID: ".data ++ generate_id (fun i => r (24 + i)),
                   "Error: ".data ++ fn ++ " already exists in project!".data]
        events := [] } := by
  unfold add_file_to_project
  rw [hg]
  simp [hd]

theorem add_file_success_eq (r : Nat → Nat) (fn grp content : Str) (pr : Str × Str)
    (hg : GROUP_IDS.find? (fun p => p.1 == grp) = some pr)
    (hd : isSubstr (pathSeg fn) content = false) :
    add_file_to_project r fn grp content =
      { success := true
        output := ["Adding ".data ++ fn ++ " to ".data ++ grp ++ "...".data,
                   "FileRef ID: ".data ++ generate_id r,
                   "BuildFile ID: ".data ++ generate_id (fun i => r (24 + i)),
                   "Backup saved to: ".data ++ backup_path,
                   "Successfully added ".data ++ fn ++ " to ".data ++ grp ++ "!".data]
        events := [FsEvent.writeBackup content,
                   FsEvent.writeManifest
                     (sourcesStep fn (generate_id fun i => r (24 + i))
                       (groupStep pr.2 grp fn (generate_id r)
                         (buildFileStep fn (generate_id r) (generate_id fun i => r (24 + i))
                           (fileRefStep fn (generate_id r) content))))] } := by
  unfold add_file_to_project
  rw [hg]
  simp [hd]

theorem main_eq3 (r : Nat → Nat) (prog fn grp content : Str) :
    main r [prog, fn, grp] content =
      ((if (add_file_to_project r fn grp content).success then 0 else 1),
       (if (".swift".data).isSuffixOf fn then [] else [warnLine])
         ++ (add_file_to_project r fn grp content).output,
       (add_file_to_project r fn grp content).events) := by
  simp [main, List.getD]

/-! ## Claim theorems -/

/-- C3: for an invocation whose group argument is not one of the five
recognized literals, `add_file_to_project` prints the unknown-group error and
the list of valid group names, `main` exits with status 1, no file-system
write happens, and the manifest (and backup) are byte-identical to before. -/
theorem claim_C3_unknown_group (r : Nat → Nat) (prog fn grp content : Str) (st : FsState)
    (hg : GROUP_IDS.find? (fun p => p.1 == grp) = none) :
    add_file_to_project r fn grp content =
      { success := false
        output := ["Error: Unknown group \x27".data ++ grp ++ "\x27".data, validGroupsLine]
        events := [] }
    ∧ (main r [prog, fn, grp] content).1 = 1
    ∧ (main r [prog, fn, grp] content).2.2 = []
    ∧ applyEvents st (add_file_to_project r fn grp content).events = st := by
  have he := add_file_unknown_eq r fn grp content hg
  refine ⟨he, ?_, ?_, ?_⟩
  · rw [main_eq3, he]; rfl
  · rw [main_eq3, he]
  · rw [he]; rfl

theorem claim_C3_witness :
    (main (fun _ => 0) ["prog".data, "Foo.swift".data, "Utilities".data] "x".data).1 = 1 :=
  (claim_C3_unknown_group (fun _ => 0) "prog".data "Foo.swift".data "Utilities".data
    "x".data ⟨[], none⟩ (by decide)).2.1

/-- C4: if the manifest contains `path = <filename>;` as a plain substring,
the call fails (exit status 1 through `main`), performs no file-system write,
and leaves manifest and backup untouched.  The hypothesis is exactly the
substring containment test the code performs -- no structural lookup. -/
theorem claim_C4_duplicate (r : Nat → Nat) (prog fn grp content : Str) (pr : Str × Str)
    (st : FsState)
    (hg : GROUP_IDS.find? (fun p => p.1 == grp) = some pr)
    (hd : isSubstr (pathSeg fn) content = true) :
    (add_file_to_project r fn grp content).success = false
    ∧ (add_file_to_project r fn grp content).events = []
    ∧ (main r [prog, fn, grp] content).1 = 1
    ∧ applyEvents st (add_file_to_project r fn grp content).events = st := by
  have he := add_file_dup_eq r fn grp content pr hg hd
  refine ⟨?_, ?_, ?_, ?_⟩
  · rw [he]
  · rw [he]
  · rw [main_eq3, he]; rfl
  · rw [he]; rfl

theorem claim_C4_witness :
    (add_file_to_project (fun _ => 0) "Foo.swift".data "Models".data
      "path = Foo.swift;".data).success = false :=
  (claim_C4_duplicate (fun _ => 0) "prog".data "Foo.swift".data "Models".data
    "path = Foo.swift;".data ("Models".data, "228C21072ED56D9100F0ACD5".data)
    ⟨[], none⟩ (by decide) (by decide)).1

/-- C5: every call that passes both validation gates writes the backup file at
the fixed path `PBXPROJ ++ ".backup"` first, before the manifest write; the
backup's content is exactly the manifest's pre-call content, and it overwrites
whatever backup existed before (for every prior file-system state the final
backup is the pre-call manifest). -/
theorem claim_C5_backup (r : Nat → Nat) (fn grp content : Str) (pr : Str × Str)
    (hg : GROUP_IDS.find? (fun p => p.1 == grp) = some pr)
    (hd : isSubstr (pathSeg fn) content = false) :
    backup_path = PBXPROJ ++ ".backup".data
    ∧ (∃ c4, (add_file_to_project r fn grp content).events
        = [FsEvent.writeBackup content, FsEvent.writeManifest c4])
    ∧ ∀ st : FsState,
        (applyEvents st (add_file_to_project r fn grp content).events).backup = some content := by
  have he := add_file_success_eq r fn grp content pr hg hd
  refine ⟨rfl, ⟨_, by rw [he]⟩, fun st => by rw [he]; rfl⟩

theorem claim_C5_witness :
    (applyEvents ⟨"old".data, some "oldbackup".data⟩
      (add_file_to_project (fun _ => 0) "Foo.swift".data "Models".data "abc".data).events).backup
      = some "abc".data :=
  (claim_C5_backup (fun _ => 0) "Foo.swift".data "Models".data "abc".data
    ("Models".data, "228C21072ED56D9100F0ACD5".data) (by decide) (by decide)).2.2
    ⟨"old".data, some "oldbackup".data⟩

/-- C7: every identifier `generate_id` produces is exactly 24 characters long
over the uppercase hexadecimal alphabet `0-9A-F`; the two identifiers of a run
are drawn independently with no uniqueness check -- for a constant random
stream the two identifiers coincide, and the success of
`add_file_to_project` never depends on the drawn identifiers. -/
theorem claim_C7_generate_id (r r2 : Nat → Nat) (fn grp content : Str) :
    (generate_id r).length = 24
    ∧ (generate_id r).all (fun c => "0123456789ABCDEF".data.contains c) = true
    ∧ generate_id (fun _ => 0) = generate_id (fun i => (fun _ : Nat => 0) (24 + i))
    ∧ (add_file_to_project r fn grp content).success
        = (add_file_to_project r2 fn grp content).success := by
  refine ⟨by simp [generate_id], ?_, by decide, ?_⟩
  · rw [List.all_eq_true]
    intro c hc
    simp only [generate_id, List.mem_map, List.mem_range] at hc
    obtain ⟨i, -, hi⟩ := hc
    have hget : ∀ n, n < idAlphabet.length →
        "0123456789ABCDEF".data.contains (idAlphabet.getD n 'A') = true := by decide
    have hlt : r i % idAlphabet.length < idAlphabet.length := Nat.mod_lt _ (by decide)
    rw [← hi]
    exact hget _ hlt
  · unfold add_file_to_project
    cases hg : GROUP_IDS.find? (fun p => p.1 == grp) with
    | none => rfl
    | some pr =>
      by_cases hd : isSubstr (pathSeg fn) content = true
      · simp [hd]
      · rw [Bool.not_eq_true] at hd
        simp [hd]

/-- C8: a filename without the `.swift` extension only triggers the warning
line: the insertion proceeds exactly as otherwise (same result record, same
file writes), and under the usual success conditions the run succeeds with
exit status 0. -/
theorem claim_C8_extension_warning (r : Nat → Nat) (prog fn grp content : Str) (pr : Str × Str)
    (hext : (".swift".data).isSuffixOf fn = false)
    (hg : GROUP_IDS.find? (fun p => p.1 == grp) = some pr)
    (hd : isSubstr (pathSeg fn) content = false) :
    (main r [prog, fn, grp] content).1 = 0
    ∧ (main r [prog, fn, grp] content).2.1
        = warnLine :: (add_file_to_project r fn grp content).output
    ∧ (main r [prog, fn, grp] content).2.2 = (add_file_to_project r fn grp content).events
    ∧ (add_file_to_project r fn grp content).success = true := by
  have hs : (add_file_to_project r fn grp content).success = true := by
    rw [add_file_success_eq r fn grp content pr hg hd]
  refine ⟨?_, ?_, ?_, hs⟩
  · rw [main_eq3]
    simp [hs]
  · rw [main_eq3]
    simp [hext]
  · rw [main_eq3]

theorem claim_C8_witness :
    (main (fun _ => 0) ["prog".data, "Bar.txt".data, "Views".data] "x".data).1 = 0 :=
  (claim_C8_extension_warning (fun _ => 0) "prog".data "Bar.txt".data "Views".data
    "x".data ("Views".data, "228C21172ED56D9100F0ACD5".data)
    (by decide) (by decide) (by decide)).1

/-- C2: when the step-7 (group children) or step-8 (Sources files) pattern
search finds no match, that insertion is a no-op with no error raised and no
failure diagnostic (the printed lines are exactly the fixed success lines),
the modified text is still written, and the run still reports success (exit
status 0). -/
theorem claim_C2_silent_skip (r : Nat → Nat) (prog fn grp content : Str) (pr : Str × Str)
    (hg : GROUP_IDS.find? (fun p => p.1 == grp) = some pr)
    (hd : isSubstr (pathSeg fn) content = false) :
    (add_file_to_project r fn grp content).success = true
    ∧ (main r [prog, fn, grp] content).1 = 0
    ∧ (add_file_to_project r fn grp content).output
        = ["Adding ".data ++ fn ++ " to ".data ++ grp ++ "...".data,
           "FileRef ID: ".data ++ generate_id r,
           "BuildFile ID: ".data ++ generate_id (fun i => r (24 + i)),
           "Backup saved to: ".data ++ backup_path,
           "Successfully added ".data ++ fn ++ " to ".data ++ grp ++ "!".data]
    ∧ (add_file_to_project r fn grp content).events
        = [FsEvent.writeBackup content,
           FsEvent.writeManifest
             (sourcesStep fn (generate_id fun i => r (24 + i))
               (groupStep pr.2 grp fn (generate_id r)
                 (buildFileStep fn (generate_id r) (generate_id fun i => r (24 + i))
                   (fileRefStep fn (generate_id r) content))))]
    ∧ (∀ x : Str, searchGroup pr.2 grp x = none →
        groupStep pr.2 grp fn (generate_id r) x = x)
    ∧ (∀ x : Str, searchSources x = none →
        sourcesStep fn (generate_id fun i => r (24 + i)) x = x) := by
  have he := add_file_success_eq r fn grp content pr hg hd
  refine ⟨by rw [he], ?_, by rw [he], by rw [he], ?_, ?_⟩
  · rw [main_eq3, he]; rfl
  · exact fun x hx => groupStep_none _ _ _ _ _ hx
  · exact fun x hx => sourcesStep_none _ _ _ hx

theorem claim_C2_witness :
    (add_file_to_project (fun _ => 0) "Foo.swift".data "Models".data "x".data).success = true :=
  (claim_C2_silent_skip (fun _ => 0) "prog".data "Foo.swift".data "Models".data "x".data
    ("Models".data, "228C21072ED56D9100F0ACD5".data) (by decide) (by decide)).1

/-- C10: the silent-skip behaviour extends to steps 5 and 6: on any text
lacking the PBXFileReference sentinel, step 5 is a no-op, and on any text
lacking the PBXBuildFile sentinel, step 6 is a no-op -- each independently,
with no diagnostic; once validation passes, the manifest file is still
rewritten (the write event is unconditional, even when, with both sentinels
absent and neither later pattern matching, the written content is identical),
and the run still exits 0. -/
theorem claim_C10_sentinel_skip (r : Nat → Nat) (prog fn grp content : Str) (pr : Str × Str)
    (hg : GROUP_IDS.find? (fun p => p.1 == grp) = some pr)
    (hd : isSubstr (pathSeg fn) content = false) :
    (∀ x : Str, isSubstr endFileRefMarker x = false →
        fileRefStep fn (generate_id r) x = x)
    ∧ (∀ x : Str, isSubstr endBuildFileMarker x = false →
        buildFileStep fn (generate_id r) (generate_id fun i => r (24 + i)) x = x)
    ∧ (add_file_to_project r fn grp content).success = true
    ∧ (add_file_to_project r fn grp content).events
        = [FsEvent.writeBackup content,
           FsEvent.writeManifest
             (sourcesStep fn (generate_id fun i => r (24 + i))
               (groupStep pr.2 grp fn (generate_id r)
                 (buildFileStep fn (generate_id r) (generate_id fun i => r (24 + i))
                   (fileRefStep fn (generate_id r) content))))]
    ∧ (main r [prog, fn, grp] content).1 = 0
    ∧ (isSubstr endFileRefMarker content = false →
        isSubstr endBuildFileMarker content = false →
        searchGroup pr.2 grp content = none → searchSources content = none →
        (add_file_to_project r fn grp content).events
          = [FsEvent.writeBackup content, FsEvent.writeManifest content]) := by
  have he := add_file_success_eq r fn grp content pr hg hd
  refine ⟨fun x hx => replaceAll_of_not_sub _ _ _ hx,
    fun x hx => replaceAll_of_not_sub _ _ _ hx,
    by rw [he], by rw [he], by rw [main_eq3, he]; rfl, ?_⟩
  intro h1 h2 hsg hss
  have e1 : fileRefStep fn (generate_id r) content = content :=
    replaceAll_of_not_sub _ _ _ h1
  have e2 : buildFileStep fn (generate_id r) (generate_id fun i => r (24 + i)) content
      = content := replaceAll_of_not_sub _ _ _ h2
  rw [he]
  simp only [e1, e2, groupStep_none _ _ _ _ _ hsg, sourcesStep_none _ _ _ hss]

theorem claim_C10_witness :
    fileRefStep "Foo.swift".data (generate_id fun _ => 0)
        "a\n/* End PBXBuildFile section */\n".data
      = "a\n/* End PBXBuildFile section */\n".data
    ∧ (add_file_to_project (fun _ => 0) "Foo.swift".data "Models".data
        "a\n/* End PBXBuildFile section */\n".data).success = true
    ∧ (add_file_to_project (fun _ => 0) "Foo.swift".data "Models".data "plain".data).events
        = [FsEvent.writeBackup "plain".data, FsEvent.writeManifest "plain".data] :=
  have h := claim_C10_sentinel_skip (fun _ => 0) "prog".data "Foo.swift".data "Models".data
    "a\n/* End PBXBuildFile section */\n".data
    ("Models".data, "228C21072ED56D9100F0ACD5".data) (by decide) (by decide)
  have h2 := claim_C10_sentinel_skip (fun _ => 0) "prog".data "Foo.swift".data "Models".data
    "plain".data ("Models".data, "228C21072ED56D9100F0ACD5".data) (by decide) (by decide)
  ⟨h.1 _ (by decide), h.2.2.1,
    h2.2.2.2.2.2 (by decide) (by decide) (by decide) (by decide)⟩

/-! ## Replace-all semantics of steps 5 and 6 (claim C9) -/

theorem replaceAll_sepJoin (m e : Str) (hm : m ≠ []) :
    ∀ segs : List Str, cleanSegs m segs = true →
      replaceAll m (e ++ m) (sepJoin m segs) = sepJoin (e ++ m) segs
      ∧ countOccur m (sepJoin m segs) = segs.length - 1 := by
  intro segs
  induction segs with
  | nil =>
    intro _
    refine ⟨?_, ?_⟩
    · show replaceAll m (e ++ m) [] = ([] : Str)
      rw [replaceAll]
    · show countOccur m [] = ([] : List Str).length - 1
      rw [countOccur]
      rfl
  | cons c rest ih =>
    intro h
    cases rest with
    | nil =>
      have hc : isSubstr m c = false := by
        have h' : (! isSubstr m c) = true := h
        rwa [Bool.not_eq_true'] at h'
      refine ⟨?_, ?_⟩
      · show replaceAll m (e ++ m) c = c
        exact replaceAll_of_not_sub _ _ _ hc
      · show countOccur m c = [c].length - 1
        simp [countOccur_of_not_sub _ _ hc]
    | cons c2 rest2 =>
      have h' : (noEarlyB m c.length (c ++ m ++ sepJoin m (c2 :: rest2))
          && cleanSegs m (c2 :: rest2)) = true := h
      rw [Bool.and_eq_true] at h'
      have hskip := (noEarlyB_iff _ _ _).mp h'.1
      have ihr := ih h'.2
      have hskip' : ∀ i, i < c.length →
          m.isPrefixOf ((c ++ (m ++ sepJoin m (c2 :: rest2))).drop i) = false := by
        intro i hi
        have := hskip i hi
        simpa [List.append_assoc] using this
      refine ⟨?_, ?_⟩
      · show replaceAll m (e ++ m) (c ++ m ++ sepJoin m (c2 :: rest2))
          = c ++ (e ++ m) ++ sepJoin (e ++ m) (c2 :: rest2)
        rw [List.append_assoc, replaceAll_skip m (e ++ m) c _ hskip',
          replaceAll_head m (e ++ m) _ hm, ihr.1]
        simp [List.append_assoc]
      · show countOccur m (c ++ m ++ sepJoin m (c2 :: rest2)) = (c :: c2 :: rest2).length - 1
        rw [List.append_assoc, countOccur_skip m c _ hskip', countOccur_head m _ hm, ihr.2]
        simp only [List.length_cons]
        omega

/-- C9: steps 5 and 6 are replace-all substitutions: on a manifest of the
form `c0 ++ marker ++ c1 ++ ... ++ marker ++ cn` (the marker occurring `n`
times, with no overlapping extra occurrence), the step inserts `n` copies of
the new entry, one immediately before each marker occurrence; exactly one
copy is inserted only when the marker occurs exactly once. -/
theorem claim_C9_replace_all (fn frid bfid : Str) (segs segs2 : List Str)
    (h1 : cleanSegs endFileRefMarker segs = true)
    (h2 : cleanSegs endBuildFileMarker segs2 = true) :
    fileRefStep fn frid (sepJoin endFileRefMarker segs)
      = sepJoin (fileref_entry fn frid ++ endFileRefMarker) segs
    ∧ countOccur endFileRefMarker (sepJoin endFileRefMarker segs) = segs.length - 1
    ∧ buildFileStep fn frid bfid (sepJoin endBuildFileMarker segs2)
      = sepJoin (buildfile_entry fn frid bfid ++ endBuildFileMarker) segs2
    ∧ countOccur endBuildFileMarker (sepJoin endBuildFileMarker segs2) = segs2.length - 1 := by
  have a := replaceAll_sepJoin endFileRefMarker (fileref_entry fn frid)
    (by decide) segs h1
  have b := replaceAll_sepJoin endBuildFileMarker (buildfile_entry fn frid bfid)
    (by decide) segs2 h2
  exact ⟨a.1, a.2, b.1, b.2⟩

/-- A prefix probe strictly inside `X` cannot see past `X ++ u` when the
pattern is no longer than `u`, so the suffix beyond may be exchanged. -/
theorem isPrefixOf_drop_shared (pat X u z z2 : Str) (i : Nat) (hi : i < X.length)
    (hlen : pat.length ≤ u.length) :
    pat.isPrefixOf ((X ++ (u ++ z)).drop i) = pat.isPrefixOf ((X ++ (u ++ z2)).drop i) := by
  apply isPrefixOf_drop_congr pat _ _ i (X.length + u.length) (by omega)
  rw [← List.append_assoc, ← List.append_assoc,
    List.take_left' (show (X ++ u).length = X.length + u.length by simp),
    List.take_left' (show (X ++ u).length = X.length + u.length by simp)]

theorem claim_C9_witness :
    countOccur endFileRefMarker
      (sepJoin endFileRefMarker ["aa".data, "bb".data, "cc".data]) = 2
    ∧ fileRefStep "F.swift".data "1234".data
        (sepJoin endFileRefMarker ["aa".data, "bb".data, "cc".data])
      = sepJoin (fileref_entry "F.swift".data "1234".data ++ endFileRefMarker)
          ["aa".data, "bb".data, "cc".data] :=
  have h := claim_C9_replace_all "F.swift".data "1234".data "5678".data
    ["aa".data, "bb".data, "cc".data] ["dd".data] (by decide) (by decide)
  ⟨h.2.1, h.1⟩

/-! ## Steps 7 and 8 on a structurally well-formed manifest -/

/-- Step 7 on a text whose group declaration is located at position `X.length`
(and whose header literal occurs nowhere earlier): the search finds exactly
the declared children list `g2`, the edit splices the child line after
`rstrip g2`, and re-running the search on the edited text shows the new line
as the last child, followed by the trailing `\n\t\t\t` before `);`. -/
theorem group_edit_spec (gid grp fn frid X g2 Y w1 w2 : Str)
    (hw1 : w1.all isWS = true) (hw2 : w2.all isWS = true)
    (hg2 : g2.all (fun c => c != ')') = true)
    (hCL : (childLine fn frid).all (fun c => c != ')') = true)
    (hX : ∀ i, i < X.length → (gl1 gid grp).isPrefixOf
      ((X ++ (gl1 gid grp ++ (w1 ++ (pbxGroupLit ++ (w2 ++ (childrenLit
        ++ (g2 ++ ')' :: ';' :: Y))))))).drop i) = false) :
    searchGroup gid grp
        (X ++ (gl1 gid grp ++ (w1 ++ (pbxGroupLit ++ (w2 ++ (childrenLit
          ++ (g2 ++ ')' :: ';' :: Y)))))))
      = some (X ++ (gl1 gid grp ++ w1 ++ pbxGroupLit ++ w2 ++ childrenLit),
              g2, ')' :: ';' :: Y)
    ∧ groupStep gid grp fn frid
        (X ++ (gl1 gid grp ++ (w1 ++ (pbxGroupLit ++ (w2 ++ (childrenLit
          ++ (g2 ++ ')' :: ';' :: Y)))))))
      = X ++ (gl1 gid grp ++ w1 ++ pbxGroupLit ++ w2 ++ childrenLit)
          ++ (rstrip g2 ++ childLine fn frid) ++ "\n\t\t\t".data ++ ')' :: ';' :: Y
    ∧ searchGroup gid grp
        (groupStep gid grp fn frid
          (X ++ (gl1 gid grp ++ (w1 ++ (pbxGroupLit ++ (w2 ++ (childrenLit
            ++ (g2 ++ ')' :: ';' :: Y))))))))
      = some (X ++ (gl1 gid grp ++ w1 ++ pbxGroupLit ++ w2 ++ childrenLit),
              rstrip g2 ++ childLine fn frid ++ "\n\t\t\t".data, ')' :: ';' :: Y) := by
  have hsg := searchGroup_found gid grp X _ _ g2 _ hX
    (matchGroupHere_build gid grp w1 w2 g2 Y hw1 hw2 hg2)
  have hstep := groupStep_eq gid grp fn frid _ _ _ _ hsg
  refine ⟨hsg, hstep, ?_⟩
  have hnl : ("\n\t\t\t".data).all (fun c => c != ')') = true := by decide
  have hg2' : (rstrip g2 ++ childLine fn frid ++ "\n\t\t\t".data).all
      (fun c => c != ')') = true := by
    simp [List.all_append, all_rstrip _ _ hg2, hCL, hnl]
  have hX' : ∀ i, i < X.length → (gl1 gid grp).isPrefixOf
      ((X ++ (gl1 gid grp ++ (w1 ++ (pbxGroupLit ++ (w2 ++ (childrenLit
        ++ ((rstrip g2 ++ childLine fn frid ++ "\n\t\t\t".data)
          ++ ')' :: ';' :: Y))))))).drop i) = false := by
    intro i hi
    rw [isPrefixOf_drop_shared (gl1 gid grp) X (gl1 gid grp)
      (w1 ++ (pbxGroupLit ++ (w2 ++ (childrenLit
        ++ ((rstrip g2 ++ childLine fn frid ++ "\n\t\t\t".data) ++ ')' :: ';' :: Y)))))
      (w1 ++ (pbxGroupLit ++ (w2 ++ (childrenLit ++ (g2 ++ ')' :: ';' :: Y)))))
      i hi (Nat.le_refl _)]
    exact hX i hi
  have hfound := searchGroup_found gid grp X _ _
    (rstrip g2 ++ childLine fn frid ++ "\n\t\t\t".data) _ hX'
    (matchGroupHere_build gid grp w1 w2
      (rstrip g2 ++ childLine fn frid ++ "\n\t\t\t".data) Y hw1 hw2 hg2')
  have eassoc : X ++ (gl1 gid grp ++ w1 ++ pbxGroupLit ++ w2 ++ childrenLit)
        ++ (rstrip g2 ++ childLine fn frid) ++ "\n\t\t\t".data ++ ')' :: ';' :: Y
      = X ++ (gl1 gid grp ++ (w1 ++ (pbxGroupLit ++ (w2 ++ (childrenLit
        ++ ((rstrip g2 ++ childLine fn frid ++ "\n\t\t\t".data) ++ ')' :: ';' :: Y)))))) := by
    simp [List.append_assoc]
  rw [hstep, eassoc]
  exact hfound

/-- Step 8, analogously, on a text whose Sources build phase is located at
position `U.length`. -/
theorem sources_edit_spec (fn bfid U v1 mid f2 V : Str)
    (hv1 : v1.all isWS = true)
    (hf2 : f2.all (fun c => c != ')') = true)
    (hSL : (sourcesLine fn bfid).all (fun c => c != ')') = true)
    (hU : ∀ i, i < U.length → sl1.isPrefixOf
      ((U ++ (sl1 ++ (v1 ++ (sourcesPhaseLit ++ (mid ++ (filesLit
        ++ (f2 ++ ')' :: ';' :: V))))))).drop i) = false)
    (hmid : ∀ i, i < mid.length → filesLit.isPrefixOf
      ((mid ++ (filesLit ++ (f2 ++ ')' :: ';' :: V))).drop i) = false) :
    searchSources
        (U ++ (sl1 ++ (v1 ++ (sourcesPhaseLit ++ (mid ++ (filesLit
          ++ (f2 ++ ')' :: ';' :: V)))))))
      = some (U ++ (sl1 ++ v1 ++ sourcesPhaseLit ++ (mid ++ filesLit)),
              f2, ')' :: ';' :: V)
    ∧ sourcesStep fn bfid
        (U ++ (sl1 ++ (v1 ++ (sourcesPhaseLit ++ (mid ++ (filesLit
          ++ (f2 ++ ')' :: ';' :: V)))))))
      = U ++ (sl1 ++ v1 ++ sourcesPhaseLit ++ (mid ++ filesLit))
          ++ (rstrip f2 ++ sourcesLine fn bfid) ++ "\n\t\t\t".data ++ ')' :: ';' :: V
    ∧ searchSources
        (sourcesStep fn bfid
          (U ++ (sl1 ++ (v1 ++ (sourcesPhaseLit ++ (mid ++ (filesLit
            ++ (f2 ++ ')' :: ';' :: V))))))))
      = some (U ++ (sl1 ++ v1 ++ sourcesPhaseLit ++ (mid ++ filesLit)),
              rstrip f2 ++ sourcesLine fn bfid ++ "\n\t\t\t".data, ')' :: ';' :: V) := by
  have hss := searchSources_found U _ _ f2 _ hU
    (matchSourcesHere_build v1 mid f2 V hv1 hmid hf2)
  have hstep := sourcesStep_eq fn bfid _ _ _ _ hss
  refine ⟨hss, hstep, ?_⟩
  have hnl : ("\n\t\t\t".data).all (fun c => c != ')') = true := by decide
  have hf2' : (rstrip f2 ++ sourcesLine fn bfid ++ "\n\t\t\t".data).all
      (fun c => c != ')') = true := by
    simp [List.all_append, all_rstrip _ _ hf2, hSL, hnl]
  have hU' : ∀ i, i < U.length → sl1.isPrefixOf
      ((U ++ (sl1 ++ (v1 ++ (sourcesPhaseLit ++ (mid ++ (filesLit
        ++ ((rstrip f2 ++ sourcesLine fn bfid ++ "\n\t\t\t".data)
          ++ ')' :: ';' :: V))))))).drop i) = false := by
    intro i hi
    rw [isPrefixOf_drop_shared sl1 U sl1
      (v1 ++ (sourcesPhaseLit ++ (mid ++ (filesLit
        ++ ((rstrip f2 ++ sourcesLine fn bfid ++ "\n\t\t\t".data) ++ ')' :: ';' :: V)))))
      (v1 ++ (sourcesPhaseLit ++ (mid ++ (filesLit ++ (f2 ++ ')' :: ';' :: V)))))
      i hi (Nat.le_refl _)]
    exact hU i hi
  have hmid' : ∀ i, i < mid.length → filesLit.isPrefixOf
      ((mid ++ (filesLit ++ ((rstrip f2 ++ sourcesLine fn bfid ++ "\n\t\t\t".data)
        ++ ')' :: ';' :: V))).drop i) = false := by
    intro i hi
    rw [isPrefixOf_drop_shared filesLit mid filesLit
      ((rstrip f2 ++ sourcesLine fn bfid ++ "\n\t\t\t".data) ++ ')' :: ';' :: V)
      (f2 ++ ')' :: ';' :: V) i hi (Nat.le_refl _)]
    exact hmid i hi
  have hfound := searchSources_found U _ _
    (rstrip f2 ++ sourcesLine fn bfid ++ "\n\t\t\t".data) _ hU'
    (matchSourcesHere_build v1 mid
      (rstrip f2 ++ sourcesLine fn bfid ++ "\n\t\t\t".data) V hv1 hmid' hf2')
  have eassoc : U ++ (sl1 ++ v1 ++ sourcesPhaseLit ++ (mid ++ filesLit))
        ++ (rstrip f2 ++ sourcesLine fn bfid) ++ "\n\t\t\t".data ++ ')' :: ';' :: V
      = U ++ (sl1 ++ (v1 ++ (sourcesPhaseLit ++ (mid ++ (filesLit
        ++ ((rstrip f2 ++ sourcesLine fn bfid ++ "\n\t\t\t".data)
          ++ ')' :: ';' :: V)))))) := by
    simp [List.append_assoc]
  rw [hstep, eassoc]
  exact hfound

/-- C6: when the step-7 pattern matches, the new line carrying the
file-reference identifier and the filename comment is appended as the last
child of the group's children list, followed by a trailing comma (the list's
trailing whitespace is stripped and the fixed `\n\t\t\t\t` indentation is
used); when the step-8 pattern matches, the build-file line with the
filename-in-Sources comment is appended as the last entry of the files list,
followed by a trailing comma.  Re-running the searches on the edited text
exhibits the old list content followed by exactly the new trailing line. -/
theorem claim_C6_append_last
    (gid grp fn frid bfid X g2 Y w1 w2 U v1 mid f2 V : Str)
    (hw1 : w1.all isWS = true) (hw2 : w2.all isWS = true) (hv1 : v1.all isWS = true)
    (hg2 : g2.all (fun c => c != ')') = true) (hf2 : f2.all (fun c => c != ')') = true)
    (hfn : fn.all (fun c => c != ')') = true)
    (hfrid : frid.all (fun c => c != ')') = true)
    (hbfid : bfid.all (fun c => c != ')') = true)
    (hX : noEarlyB (gl1 gid grp) X.length
      (X ++ (gl1 gid grp ++ (w1 ++ (pbxGroupLit ++ (w2 ++ (childrenLit
        ++ (g2 ++ ')' :: ';' :: Y))))))) = true)
    (hU : noEarlyB sl1 U.length
      (U ++ (sl1 ++ (v1 ++ (sourcesPhaseLit ++ (mid ++ (filesLit
        ++ (f2 ++ ')' :: ';' :: V))))))) = true)
    (hmid : noEarlyB filesLit mid.length
      (mid ++ (filesLit ++ (f2 ++ ')' :: ';' :: V))) = true) :
    searchGroup gid grp
        (X ++ (gl1 gid grp ++ (w1 ++ (pbxGroupLit ++ (w2 ++ (childrenLit
          ++ (g2 ++ ')' :: ';' :: Y)))))))
      = some (X ++ (gl1 gid grp ++ w1 ++ pbxGroupLit ++ w2 ++ childrenLit),
              g2, ')' :: ';' :: Y)
    ∧ groupStep gid grp fn frid
        (X ++ (gl1 gid grp ++ (w1 ++ (pbxGroupLit ++ (w2 ++ (childrenLit
          ++ (g2 ++ ')' :: ';' :: Y)))))))
      = X ++ (gl1 gid grp ++ w1 ++ pbxGroupLit ++ w2 ++ childrenLit)
          ++ (rstrip g2 ++ childLine fn frid) ++ "\n\t\t\t".data ++ ')' :: ';' :: Y
    ∧ searchGroup gid grp
        (groupStep gid grp fn frid
          (X ++ (gl1 gid grp ++ (w1 ++ (pbxGroupLit ++ (w2 ++ (childrenLit
            ++ (g2 ++ ')' :: ';' :: Y))))))))
      = some (X ++ (gl1 gid grp ++ w1 ++ pbxGroupLit ++ w2 ++ childrenLit),
              rstrip g2 ++ childLine fn frid ++ "\n\t\t\t".data, ')' :: ';' :: Y)
    ∧ searchSources
        (U ++ (sl1 ++ (v1 ++ (sourcesPhaseLit ++ (mid ++ (filesLit
          ++ (f2 ++ ')' :: ';' :: V)))))))
      = some (U ++ (sl1 ++ v1 ++ sourcesPhaseLit ++ (mid ++ filesLit)),
              f2, ')' :: ';' :: V)
    ∧ sourcesStep fn bfid
        (U ++ (sl1 ++ (v1 ++ (sourcesPhaseLit ++ (mid ++ (filesLit
          ++ (f2 ++ ')' :: ';' :: V)))))))
      = U ++ (sl1 ++ v1 ++ sourcesPhaseLit ++ (mid ++ filesLit))
          ++ (rstrip f2 ++ sourcesLine fn bfid) ++ "\n\t\t\t".data ++ ')' :: ';' :: V
    ∧ searchSources
        (sourcesStep fn bfid
          (U ++ (sl1 ++ (v1 ++ (sourcesPhaseLit ++ (mid ++ (filesLit
            ++ (f2 ++ ')' :: ';' :: V))))))))
      = some (U ++ (sl1 ++ v1 ++ sourcesPhaseLit ++ (mid ++ filesLit)),
              rstrip f2 ++ sourcesLine fn bfid ++ "\n\t\t\t".data, ')' :: ';' :: V) := by
  have hA : ("\n\t\t\t\t".data).all (fun c => c != ')') = true := by decide
  have hB : (" /* ".data).all (fun c => c != ')') = true := by decide
  have hC : (" */,".data).all (fun c => c != ')') = true := by decide
  have hD : (" in Sources */,".data).all (fun c => c != ')') = true := by decide
  have hCL : (childLine fn frid).all (fun c => c != ')') = true := by
    simp [childLine, List.all_append, hA, hB, hC, hfn, hfrid]
  have hSL : (sourcesLine fn bfid).all (fun c => c != ')') = true := by
    simp [sourcesLine, List.all_append, hA, hB, hD, hfn, hbfid]
  have hg := group_edit_spec gid grp fn frid X g2 Y w1 w2 hw1 hw2 hg2 hCL
    ((noEarlyB_iff _ _ _).mp hX)
  have hs := sources_edit_spec fn bfid U v1 mid f2 V hv1 hf2 hSL
    ((noEarlyB_iff _ _ _).mp hU) ((noEarlyB_iff _ _ _).mp hmid)
  exact ⟨hg.1, hg.2.1, hg.2.2, hs.1, hs.2.1, hs.2.2⟩

theorem generate_id_no_paren (r : Nat → Nat) :
    (generate_id r).all (fun c => c != ')') = true := by
  rw [List.all_eq_true]
  intro c hc
  simp only [generate_id, List.mem_map, List.mem_range] at hc
  obtain ⟨i, -, hi⟩ := hc
  have hget : ∀ n, n < idAlphabet.length → ((idAlphabet.getD n 'A') != ')') = true := by
    decide
  have hlt : r i % idAlphabet.length < idAlphabet.length := Nat.mod_lt _ (by decide)
  rw [← hi]
  exact hget _ hlt

/-- The file-reference entry records the filename as its `path` value: the
duplicate-check probe `path = <filename>;` sits inside it verbatim. -/
theorem fileref_entry_split (fn frid : Str) :
    fileref_entry fn frid
      = ("\t\t".data ++ frid ++ " /* ".data ++ fn
          ++ " */ = \x7bisa = PBXFileReference; lastKnownFileType = sourcecode.swift; ".data)
        ++ pathSeg fn ++ "\x20sourceTree = \"<group>\"; \x7d;\n".data := by
  have e1 : (" */ = \x7bisa = PBXFileReference; lastKnownFileType = sourcecode.swift; path = ".data : Str)
      = " */ = \x7bisa = PBXFileReference; lastKnownFileType = sourcecode.swift; ".data
        ++ "path = ".data := by decide
  have e2 : ("; sourceTree = \"<group>\"; \x7d;\n".data : Str)
      = ";".data ++ "\x20sourceTree = \"<group>\"; \x7d;\n".data := by decide
  rw [fileref_entry, pathSeg, e1, e2]
  simp [List.append_assoc]

theorem fileref_entry_ne_nil (fn frid : Str) : fileref_entry fn frid ≠ [] := by
  simp [fileref_entry]

theorem buildfile_entry_ne_nil (fn frid bfid : Str) : buildfile_entry fn frid bfid ≠ [] := by
  simp [buildfile_entry]

theorem claim_C6_witness :
    searchGroup "G".data "M".data
      (groupStep "G".data "M".data "F.swift".data "A".data
        ("x".data ++ (gl1 "G".data "M".data ++ ("\n".data ++ (pbxGroupLit
          ++ (" ".data ++ (childrenLit ++ ("k,".data ++ ')' :: ';' :: "y".data))))))))
      = some ("x".data ++ (gl1 "G".data "M".data ++ "\n".data ++ pbxGroupLit
                ++ " ".data ++ childrenLit),
              rstrip "k,".data ++ childLine "F.swift".data "A".data ++ "\n\t\t\t".data,
              ')' :: ';' :: "y".data) :=
  (claim_C6_append_last "G".data "M".data "F.swift".data "A".data "B".data
    "x".data "k,".data "y".data "\n".data " ".data
    "u".data "\n".data "m".data "q,".data "v".data
    (by decide) (by decide) (by decide) (by decide) (by decide) (by decide)
    (by decide) (by decide) (by decide) (by decide) (by decide)).2.2.1

/-- C1 (amended): for a manifest carrying each of the four required
markers/patterns exactly once (shape `pbxShape`, with no stray occurrence of
a sentinel, of the group header, of the Sources-phase header, or of the
freshly built entries anywhere else, and parenthesis-free children/files
lists), and a filename whose recorded path is not already present, a
successful call writes exactly `pbxShapeEdited`: one new file-reference entry
(count 1, up from 0) and one new build-file entry (count 1, up from 0), the
file-reference identifier inside the group's children list and the build-file
identifier inside the Sources files list. -/
theorem claim_C1_amended (r : Nat → Nat) (a b c d e2 g2 f2 w1 w2 v1 mid gid grp fn : Str)
    (hfind : GROUP_IDS.find? (fun p => p.1 == grp) = some (grp, gid))
    (hdup : isSubstr (pathSeg fn) (pbxShape a b c d e2 g2 f2 w1 w2 v1 mid gid grp) = false)
    (hw1 : w1.all isWS = true) (hw2 : w2.all isWS = true) (hv1 : v1.all isWS = true)
    (hg2 : g2.all (fun x => x != ')') = true) (hf2 : f2.all (fun x => x != ')') = true)
    (hfn : fn.all (fun x => x != ')') = true)
    (hM1pre : noEarlyB endFileRefMarker (a ++ (endBuildFileMarker ++ b)).length
      (pbxShape a b c d e2 g2 f2 w1 w2 v1 mid gid grp) = true)
    (hM1post : isSubstr endFileRefMarker (pbxTail c d e2 g2 f2 w1 w2 v1 mid gid grp) = false)
    (hM2pre : noEarlyB endBuildFileMarker a.length
      (a ++ (endBuildFileMarker ++ (b ++ (fileref_entry fn (generate_id r)
        ++ (endFileRefMarker ++ pbxTail c d e2 g2 f2 w1 w2 v1 mid gid grp))))) = true)
    (hM2post : isSubstr endBuildFileMarker
      (b ++ (fileref_entry fn (generate_id r)
        ++ (endFileRefMarker ++ pbxTail c d e2 g2 f2 w1 w2 v1 mid gid grp))) = false)
    (hX : noEarlyB (gl1 gid grp)
      (a ++ (buildfile_entry fn (generate_id r) (generate_id fun i => r (24 + i))
        ++ (endBuildFileMarker ++ (b ++ (fileref_entry fn (generate_id r)
          ++ (endFileRefMarker ++ c)))))).length
      (a ++ (buildfile_entry fn (generate_id r) (generate_id fun i => r (24 + i))
        ++ (endBuildFileMarker ++ (b ++ (fileref_entry fn (generate_id r)
          ++ (endFileRefMarker ++ pbxTail c d e2 g2 f2 w1 w2 v1 mid gid grp)))))) = true)
    (hU : noEarlyB sl1
      ((a ++ (buildfile_entry fn (generate_id r) (generate_id fun i => r (24 + i))
          ++ (endBuildFileMarker ++ (b ++ (fileref_entry fn (generate_id r)
            ++ (endFileRefMarker ++ c))))))
        ++ (gl1 gid grp ++ w1 ++ pbxGroupLit ++ w2 ++ childrenLit)
        ++ (rstrip g2 ++ childLine fn (generate_id r)) ++ "\n\t\t\t".data
        ++ (')' :: ';' :: d)).length
      ((a ++ (buildfile_entry fn (generate_id r) (generate_id fun i => r (24 + i))
          ++ (endBuildFileMarker ++ (b ++ (fileref_entry fn (generate_id r)
            ++ (endFileRefMarker ++ c))))))
        ++ (gl1 gid grp ++ w1 ++ pbxGroupLit ++ w2 ++ childrenLit)
        ++ (rstrip g2 ++ childLine fn (generate_id r)) ++ "\n\t\t\t".data
        ++ ')' :: ';' :: (d ++ (sl1 ++ (v1 ++ (sourcesPhaseLit ++ (mid ++ (filesLit
          ++ (f2 ++ ')' :: ';' :: e2)))))))) = true)
    (hmid : noEarlyB filesLit mid.length
      (mid ++ (filesLit ++ (f2 ++ ')' :: ';' :: e2))) = true)
    (hE2abs : isSubstr (buildfile_entry fn (generate_id r) (generate_id fun i => r (24 + i)))
      (pbxShape a b c d e2 g2 f2 w1 w2 v1 mid gid grp) = false)
    (hE1pre : noEarlyB (fileref_entry fn (generate_id r))
      (a ++ (buildfile_entry fn (generate_id r) (generate_id fun i => r (24 + i))
        ++ (endBuildFileMarker ++ b))).length
      (pbxShapeEdited a b c d e2 g2 f2 w1 w2 v1 mid gid grp fn (generate_id r)
        (generate_id fun i => r (24 + i))) = true)
    (hE1post : isSubstr (fileref_entry fn (generate_id r))
      (pbxEditedTail c d e2 g2 f2 w1 w2 v1 mid gid grp fn (generate_id r)
        (generate_id fun i => r (24 + i))) = false)
    (hE2pre : noEarlyB
      (buildfile_entry fn (generate_id r) (generate_id fun i => r (24 + i))) a.length
      (pbxShapeEdited a b c d e2 g2 f2 w1 w2 v1 mid gid grp fn (generate_id r)
        (generate_id fun i => r (24 + i))) = true)
    (hE2post : isSubstr (buildfile_entry fn (generate_id r) (generate_id fun i => r (24 + i)))
      (endBuildFileMarker ++ (b ++ (fileref_entry fn (generate_id r)
        ++ pbxEditedTail c d e2 g2 f2 w1 w2 v1 mid gid grp fn (generate_id r)
          (generate_id fun i => r (24 + i))))) = false) :
    add_file_to_project r fn grp (pbxShape a b c d e2 g2 f2 w1 w2 v1 mid gid grp)
      = { success := true
          output := ["Adding ".data ++ fn ++ " to ".data ++ grp ++ "...".data,
                     "FileRef ID: ".data ++ generate_id r,
                     "BuildFile ID: ".data ++ generate_id (fun i => r (24 + i)),
                     "Backup saved to: ".data ++ backup_path,
                     "Successfully added ".data ++ fn ++ " to ".data ++ grp ++ "!".data]
          events := [FsEvent.writeBackup (pbxShape a b c d e2 g2 f2 w1 w2 v1 mid gid grp),
                     FsEvent.writeManifest
                       (pbxShapeEdited a b c d e2 g2 f2 w1 w2 v1 mid gid grp fn
                         (generate_id r) (generate_id fun i => r (24 + i)))] }
    ∧ countOccur (fileref_entry fn (generate_id r))
        (pbxShape a b c d e2 g2 f2 w1 w2 v1 mid gid grp) = 0
    ∧ countOccur (buildfile_entry fn (generate_id r) (generate_id fun i => r (24 + i)))
        (pbxShape a b c d e2 g2 f2 w1 w2 v1 mid gid grp) = 0
    ∧ countOccur (fileref_entry fn (generate_id r))
        (pbxShapeEdited a b c d e2 g2 f2 w1 w2 v1 mid gid grp fn (generate_id r)
          (generate_id fun i => r (24 + i))) = 1
    ∧ countOccur (buildfile_entry fn (generate_id r) (generate_id fun i => r (24 + i)))
        (pbxShapeEdited a b c d e2 g2 f2 w1 w2 v1 mid gid grp fn (generate_id r)
          (generate_id fun i => r (24 + i))) = 1
    ∧ isSubstr (generate_id r)
        (rstrip g2 ++ childLine fn (generate_id r) ++ "\n\t\t\t".data) = true
    ∧ isSubstr (generate_id fun i => r (24 + i))
        (rstrip f2 ++ sourcesLine fn (generate_id fun i => r (24 + i))
          ++ "\n\t\t\t".data) = true := by
  have hfrP : (generate_id r).all (fun x => x != ')') = true := generate_id_no_paren r
  have hbfP : (generate_id fun i => r (24 + i)).all (fun x => x != ')') = true :=
    generate_id_no_paren _
  have hA : ("\n\t\t\t\t".data).all (fun x => x != ')') = true := by decide
  have hB : (" /* ".data).all (fun x => x != ')') = true := by decide
  have hC : (" */,".data).all (fun x => x != ')') = true := by decide
  have hD : (" in Sources */,".data).all (fun x => x != ')') = true := by decide
  have hCL : (childLine fn (generate_id r)).all (fun x => x != ')') = true := by
    simp [childLine, List.all_append, hA, hB, hC, hfn, hfrP]
  have hSL : (sourcesLine fn (generate_id fun i => r (24 + i))).all
      (fun x => x != ')') = true := by
    simp [sourcesLine, List.all_append, hA, hB, hD, hfn, hbfP]
  have es1 : pbxShape a b c d e2 g2 f2 w1 w2 v1 mid gid grp
      = (a ++ (endBuildFileMarker ++ b))
        ++ (endFileRefMarker ++ pbxTail c d e2 g2 f2 w1 w2 v1 mid gid grp) := by
    simp [pbxShape, List.append_assoc]
  have h1 : fileRefStep fn (generate_id r) (pbxShape a b c d e2 g2 f2 w1 w2 v1 mid gid grp)
      = a ++ (endBuildFileMarker ++ (b ++ (fileref_entry fn (generate_id r)
          ++ (endFileRefMarker ++ pbxTail c d e2 g2 f2 w1 w2 v1 mid gid grp)))) := by
    have hskip1 : ∀ i, i < (a ++ (endBuildFileMarker ++ b)).length →
        endFileRefMarker.isPrefixOf
          (((a ++ (endBuildFileMarker ++ b))
            ++ (endFileRefMarker ++ pbxTail c d e2 g2 f2 w1 w2 v1 mid gid grp)).drop i)
          = false := by
      intro i hi
      rw [← es1]
      exact (noEarlyB_iff _ _ _).mp hM1pre i hi
    unfold fileRefStep
    rw [es1, replaceAll_skip _ _ _ _ hskip1, replaceAll_head _ _ _ (by decide),
      replaceAll_of_not_sub _ _ _ hM1post]
    simp [List.append_assoc]
  have h2 : buildFileStep fn (generate_id r) (generate_id fun i => r (24 + i))
      (a ++ (endBuildFileMarker ++ (b ++ (fileref_entry fn (generate_id r)
        ++ (endFileRefMarker ++ pbxTail c d e2 g2 f2 w1 w2 v1 mid gid grp)))))
      = a ++ (buildfile_entry fn (generate_id r) (generate_id fun i => r (24 + i))
          ++ (endBuildFileMarker ++ (b ++ (fileref_entry fn (generate_id r)
            ++ (endFileRefMarker ++ pbxTail c d e2 g2 f2 w1 w2 v1 mid gid grp))))) := by
    unfold buildFileStep
    rw [replaceAll_skip _ _ _ _ ((noEarlyB_iff _ _ _).mp hM2pre),
      replaceAll_head _ _ _ (by decide), replaceAll_of_not_sub _ _ _ hM2post]
    simp [List.append_assoc]
  have es3 : a ++ (buildfile_entry fn (generate_id r) (generate_id fun i => r (24 + i))
        ++ (endBuildFileMarker ++ (b ++ (fileref_entry fn (generate_id r)
          ++ (endFileRefMarker ++ pbxTail c d e2 g2 f2 w1 w2 v1 mid gid grp)))))
      = (a ++ (buildfile_entry fn (generate_id r) (generate_id fun i => r (24 + i))
          ++ (endBuildFileMarker ++ (b ++ (fileref_entry fn (generate_id r)
            ++ (endFileRefMarker ++ c))))))
        ++ (gl1 gid grp ++ (w1 ++ (pbxGroupLit ++ (w2 ++ (childrenLit
          ++ (g2 ++ ')' :: ';' :: (d ++ (sl1 ++ (v1 ++ (sourcesPhaseLit
            ++ (mid ++ (filesLit ++ (f2 ++ ')' :: ';' :: e2))))))))))))) := by
    simp [pbxTail, List.append_assoc]
  have hXconv : ∀ i, i < (a ++ (buildfile_entry fn (generate_id r)
        (generate_id fun i => r (24 + i))
        ++ (endBuildFileMarker ++ (b ++ (fileref_entry fn (generate_id r)
          ++ (endFileRefMarker ++ c)))))).length →
      (gl1 gid grp).isPrefixOf
        (((a ++ (buildfile_entry fn (generate_id r) (generate_id fun i => r (24 + i))
            ++ (endBuildFileMarker ++ (b ++ (fileref_entry fn (generate_id r)
              ++ (endFileRefMarker ++ c))))))
          ++ (gl1 gid grp ++ (w1 ++ (pbxGroupLit ++ (w2 ++ (childrenLit
            ++ (g2 ++ ')' :: ';' :: (d ++ (sl1 ++ (v1 ++ (sourcesPhaseLit
              ++ (mid ++ (filesLit ++ (f2 ++ ')' :: ';' :: e2)))))))))))))).drop i)
        = false := by
    intro i hi
    rw [← es3]
    exact (noEarlyB_iff _ _ _).mp hX i hi
  have hgs := group_edit_spec gid grp fn (generate_id r)
    (a ++ (buildfile_entry fn (generate_id r) (generate_id fun i => r (24 + i))
      ++ (endBuildFileMarker ++ (b ++ (fileref_entry fn (generate_id r)
        ++ (endFileRefMarker ++ c))))))
    g2
    (d ++ (sl1 ++ (v1 ++ (sourcesPhaseLit ++ (mid ++ (filesLit
      ++ (f2 ++ ')' :: ';' :: e2)))))))
    w1 w2 hw1 hw2 hg2 hCL hXconv
  have h3 : groupStep gid grp fn (generate_id r)
      (a ++ (buildfile_entry fn (generate_id r) (generate_id fun i => r (24 + i))
        ++ (endBuildFileMarker ++ (b ++ (fileref_entry fn (generate_id r)
          ++ (endFileRefMarker ++ pbxTail c d e2 g2 f2 w1 w2 v1 mid gid grp))))))
      = (a ++ (buildfile_entry fn (generate_id r) (generate_id fun i => r (24 + i))
          ++ (endBuildFileMarker ++ (b ++ (fileref_entry fn (generate_id r)
            ++ (endFileRefMarker ++ c))))))
        ++ (gl1 gid grp ++ w1 ++ pbxGroupLit ++ w2 ++ childrenLit)
        ++ (rstrip g2 ++ childLine fn (generate_id r)) ++ "\n\t\t\t".data
        ++ ')' :: ';' :: (d ++ (sl1 ++ (v1 ++ (sourcesPhaseLit ++ (mid ++ (filesLit
          ++ (f2 ++ ')' :: ';' :: e2))))))) := by
    rw [es3]
    exact hgs.2.1
  have es4 : (a ++ (buildfile_entry fn (generate_id r) (generate_id fun i => r (24 + i))
          ++ (endBuildFileMarker ++ (b ++ (fileref_entry fn (generate_id r)
            ++ (endFileRefMarker ++ c))))))
        ++ (gl1 gid grp ++ w1 ++ pbxGroupLit ++ w2 ++ childrenLit)
        ++ (rstrip g2 ++ childLine fn (generate_id r)) ++ "\n\t\t\t".data
        ++ ')' :: ';' :: (d ++ (sl1 ++ (v1 ++ (sourcesPhaseLit ++ (mid ++ (filesLit
          ++ (f2 ++ ')' :: ';' :: e2)))))))
      = ((a ++ (buildfile_entry fn (generate_id r) (generate_id fun i => r (24 + i))
          ++ (endBuildFileMarker ++ (b ++ (fileref_entry fn (generate_id r)
            ++ (endFileRefMarker ++ c))))))
        ++ (gl1 gid grp ++ w1 ++ pbxGroupLit ++ w2 ++ childrenLit)
        ++ (rstrip g2 ++ childLine fn (generate_id r)) ++ "\n\t\t\t".data
        ++ (')' :: ';' :: d))
        ++ (sl1 ++ (v1 ++ (sourcesPhaseLit ++ (mid ++ (filesLit
          ++ (f2 ++ ')' :: ';' :: e2)))))) := by
    simp [List.append_assoc]
  have hUconv : ∀ i, i < ((a ++ (buildfile_entry fn (generate_id r)
          (generate_id fun i => r (24 + i))
          ++ (endBuildFileMarker ++ (b ++ (fileref_entry fn (generate_id r)
            ++ (endFileRefMarker ++ c))))))
        ++ (gl1 gid grp ++ w1 ++ pbxGroupLit ++ w2 ++ childrenLit)
        ++ (rstrip g2 ++ childLine fn (generate_id r)) ++ "\n\t\t\t".data
        ++ (')' :: ';' :: d)).length →
      sl1.isPrefixOf
        ((((a ++ (buildfile_entry fn (generate_id r) (generate_id fun i => r (24 + i))
            ++ (endBuildFileMarker ++ (b ++ (fileref_entry fn (generate_id r)
              ++ (endFileRefMarker ++ c))))))
          ++ (gl1 gid grp ++ w1 ++ pbxGroupLit ++ w2 ++ childrenLit)
          ++ (rstrip g2 ++ childLine fn (generate_id r)) ++ "\n\t\t\t".data
          ++ (')' :: ';' :: d))
          ++ (sl1 ++ (v1 ++ (sourcesPhaseLit ++ (mid ++ (filesLit
            ++ (f2 ++ ')' :: ';' :: e2))))))).drop i)
        = false := by
    intro i hi
    rw [← es4]
    exact (noEarlyB_iff _ _ _).mp hU i hi
  have hss := sources_edit_spec fn (generate_id fun i => r (24 + i))
    ((a ++ (buildfile_entry fn (generate_id r) (generate_id fun i => r (24 + i))
        ++ (endBuildFileMarker ++ (b ++ (fileref_entry fn (generate_id r)
          ++ (endFileRefMarker ++ c))))))
      ++ (gl1 gid grp ++ w1 ++ pbxGroupLit ++ w2 ++ childrenLit)
      ++ (rstrip g2 ++ childLine fn (generate_id r)) ++ "\n\t\t\t".data
      ++ (')' :: ';' :: d))
    v1 mid f2 e2 hv1 hf2 hSL hUconv ((noEarlyB_iff _ _ _).mp hmid)
  have h4 : sourcesStep fn (generate_id fun i => r (24 + i))
      ((a ++ (buildfile_entry fn (generate_id r) (generate_id fun i => r (24 + i))
          ++ (endBuildFileMarker ++ (b ++ (fileref_entry fn (generate_id r)
            ++ (endFileRefMarker ++ c))))))
        ++ (gl1 gid grp ++ w1 ++ pbxGroupLit ++ w2 ++ childrenLit)
        ++ (rstrip g2 ++ childLine fn (generate_id r)) ++ "\n\t\t\t".data
        ++ ')' :: ';' :: (d ++ (sl1 ++ (v1 ++ (sourcesPhaseLit ++ (mid ++ (filesLit
          ++ (f2 ++ ')' :: ';' :: e2))))))))
      = pbxShapeEdited a b c d e2 g2 f2 w1 w2 v1 mid gid grp fn (generate_id r)
          (generate_id fun i => r (24 + i)) := by
    rw [es4]
    rw [hss.2.1]
    simp [pbxShapeEdited, pbxEditedTail, List.append_assoc]
  have hrun := add_file_success_eq r fn grp
    (pbxShape a b c d e2 g2 f2 w1 w2 v1 mid gid grp) (grp, gid) hfind hdup
  have ee1 : pbxShapeEdited a b c d e2 g2 f2 w1 w2 v1 mid gid grp fn (generate_id r)
        (generate_id fun i => r (24 + i))
      = (a ++ (buildfile_entry fn (generate_id r) (generate_id fun i => r (24 + i))
          ++ (endBuildFileMarker ++ b)))
        ++ (fileref_entry fn (generate_id r)
          ++ pbxEditedTail c d e2 g2 f2 w1 w2 v1 mid gid grp fn (generate_id r)
            (generate_id fun i => r (24 + i))) := by
    simp [pbxShapeEdited, List.append_assoc]
  have ee2 : pbxShapeEdited a b c d e2 g2 f2 w1 w2 v1 mid gid grp fn (generate_id r)
        (generate_id fun i => r (24 + i))
      = a ++ (buildfile_entry fn (generate_id r) (generate_id fun i => r (24 + i))
          ++ (endBuildFileMarker ++ (b ++ (fileref_entry fn (generate_id r)
            ++ pbxEditedTail c d e2 g2 f2 w1 w2 v1 mid gid grp fn (generate_id r)
              (generate_id fun i => r (24 + i)))))) := rfl
  refine ⟨?_, ?_, ?_, ?_, ?_, ?_, ?_⟩
  · rw [hrun]
    have hchain : sourcesStep fn (generate_id fun i => r (24 + i))
        (groupStep gid grp fn (generate_id r)
          (buildFileStep fn (generate_id r) (generate_id fun i => r (24 + i))
            (fileRefStep fn (generate_id r)
              (pbxShape a b c d e2 g2 f2 w1 w2 v1 mid gid grp))))
        = pbxShapeEdited a b c d e2 g2 f2 w1 w2 v1 mid gid grp fn (generate_id r)
            (generate_id fun i => r (24 + i)) := by
      rw [h1, h2, h3, h4]
    rw [hchain]
  · exact countOccur_of_not_sub _ _
      (isSubstr_of_part (pathSeg fn) _ _ _ _ (fileref_entry_split fn (generate_id r)) hdup)
  · exact countOccur_of_not_sub _ _ hE2abs
  · rw [ee1, countOccur_skip _ _ _ (fun i hi => by
      rw [← ee1]
      exact (noEarlyB_iff _ _ _).mp hE1pre i hi),
      countOccur_head _ _ (fileref_entry_ne_nil fn _),
      countOccur_of_not_sub _ _ hE1post]
  · rw [ee2, countOccur_skip _ _ _ (fun i hi => by
      rw [← ee2]
      exact (noEarlyB_iff _ _ _).mp hE2pre i hi),
      countOccur_head _ _ (buildfile_entry_ne_nil fn _ _),
      countOccur_of_not_sub _ _ hE2post]
  · have e : rstrip g2 ++ childLine fn (generate_id r) ++ "\n\t\t\t".data
        = (rstrip g2 ++ "\n\t\t\t\t".data) ++ generate_id r
          ++ (" /* ".data ++ (fn ++ (" */,".data ++ "\n\t\t\t".data))) := by
      simp [childLine, List.append_assoc]
    rw [e]
    exact isSubstr_append_mid _ _ _
  · have e : rstrip f2 ++ sourcesLine fn (generate_id fun i => r (24 + i))
          ++ "\n\t\t\t".data
        = (rstrip f2 ++ "\n\t\t\t\t".data) ++ generate_id (fun i => r (24 + i))
          ++ (" /* ".data ++ (fn ++ (" in Sources */,".data ++ "\n\t\t\t".data))) := by
      simp [sourcesLine, List.append_assoc]
    rw [e]
    exact isSubstr_append_mid _ _ _

theorem claim_C1_witness :
    countOccur (fileref_entry "Foo.swift".data (generate_id fun _ => 0))
      (pbxShapeEdited "A\n".data "B\n".data "C\n".data "D\n".data "E\n".data
        "k,".data "q,".data "\n".data " ".data "\n".data "zz".data
        "228C21072ED56D9100F0ACD5".data "Models".data "Foo.swift".data
        (generate_id fun _ => 0) (generate_id fun _ => 0)) = 1 :=
  (claim_C1_amended (fun _ => 0) "A\n".data "B\n".data "C\n".data "D\n".data "E\n".data
    "k,".data "q,".data "\n".data " ".data "\n".data "zz".data
    "228C21072ED56D9100F0ACD5".data "Models".data "Foo.swift".data
    (by decide) (by decide) (by decide) (by decide) (by decide) (by decide)
    (by decide) (by decide) (by decide) (by decide) (by decide) (by decide)
    (by decide) (by decide) (by decide) (by decide) (by decide) (by decide)
    (by decide) (by decide)).2.2.2.1

/-- C1 (counterexample): `cxManifest` contains all four required
markers/patterns and does not contain `path = Foo.swift;`, yet a successful
run leaves TWO copies of the new file-reference entry in the written
manifest, because the PBXFileReference sentinel occurs twice and step 5 is a
replace-all substitution.  This refutes C1 as stated. -/
theorem claim_C1_counterexample :
    isSubstr endFileRefMarker cxManifest = true
    ∧ isSubstr endBuildFileMarker cxManifest = true
    ∧ (searchGroup "228C21072ED56D9100F0ACD5".data "Models".data cxManifest).isSome = true
    ∧ (searchSources cxManifest).isSome = true
    ∧ isSubstr (pathSeg "Foo.swift".data) cxManifest = false
    ∧ (add_file_to_project (fun _ => 0) "Foo.swift".data "Models".data cxManifest).success
        = true
    ∧ countOccur (fileref_entry "Foo.swift".data (generate_id fun _ => 0))
        (writtenManifest
          (add_file_to_project (fun _ => 0) "Foo.swift".data "Models".data cxManifest)
          cxManifest) = 2 := by
  have hrun := add_file_success_eq (fun _ => 0) "Foo.swift".data "Models".data cxManifest
    ("Models".data, "228C21072ED56D9100F0ACD5".data) (by decide) (by decide)
  have h1 : fileRefStep "Foo.swift".data (generate_id fun _ => 0) cxManifest
      = ("q\n/* End PBXBuildFile section */\n\t\t000000000000000000000000 /* Foo.swift */ = \x7bisa = PBXFileReference; lastKnownFileType = sourcecode.swift; path = Foo.swift; sourceTree = \"<group>\"; \x7d;\n/* End PBXFileReference section */\nmid\n\t\t000000000000000000000000 /* Foo.swift */ = \x7bisa = PBXFileReference; lastKnownFileType = sourcecode.swift; path = Foo.swift; sourceTree = \"<group>\"; \x7d;\n/* End PBXFileReference section */\n228C21072ED56D9100F0ACD5 /* Models */ = \x7bisa = PBXGroup;children = (a);\n0B1A00271A2A3A4A5A6A7A8A /* Sources */ = \x7bisa = PBXSourcesBuildPhase;files = (b);\n").data := by
    unfold fileRefStep
    rw [(by decide : cxManifest
      = ("q\n".data ++ (endBuildFileMarker ++ "\n".data))
        ++ (endFileRefMarker ++ ("\nmid\n".data ++ (endFileRefMarker
          ++ ("\n228C21072ED56D9100F0ACD5 /* Models */ = \x7bisa = PBXGroup;children = (a);\n0B1A00271A2A3A4A5A6A7A8A /* Sources */ = \x7bisa = PBXSourcesBuildPhase;files = (b);\n").data))))]
    rw [replaceAll_skip _ _ _ _ (by decide), replaceAll_head _ _ _ (by decide),
      replaceAll_skip _ _ _ _ (by decide), replaceAll_head _ _ _ (by decide),
      replaceAll_of_not_sub _ _ _ (by decide)]
    decide
  have h2 : buildFileStep "Foo.swift".data (generate_id fun _ => 0) (generate_id fun _ => 0)
      ("q\n/* End PBXBuildFile section */\n\t\t000000000000000000000000 /* Foo.swift */ = \x7bisa = PBXFileReference; lastKnownFileType = sourcecode.swift; path = Foo.swift; sourceTree = \"<group>\"; \x7d;\n/* End PBXFileReference section */\nmid\n\t\t000000000000000000000000 /* Foo.swift */ = \x7bisa = PBXFileReference; lastKnownFileType = sourcecode.swift; path = Foo.swift; sourceTree = \"<group>\"; \x7d;\n/* End PBXFileReference section */\n228C21072ED56D9100F0ACD5 /* Models */ = \x7bisa = PBXGroup;children = (a);\n0B1A00271A2A3A4A5A6A7A8A /* Sources */ = \x7bisa = PBXSourcesBuildPhase;files = (b);\n").data
      = ("q\n\t\t000000000000000000000000 /* Foo.swift in Sources */ = \x7bisa = PBXBuildFile; fileRef = 000000000000000000000000 /* Foo.swift */; \x7d;\n/* End PBXBuildFile section */\n\t\t000000000000000000000000 /* Foo.swift */ = \x7bisa = PBXFileReference; lastKnownFileType = sourcecode.swift; path = Foo.swift; sourceTree = \"<group>\"; \x7d;\n/* End PBXFileReference section */\nmid\n\t\t000000000000000000000000 /* Foo.swift */ = \x7bisa = PBXFileReference; lastKnownFileType = sourcecode.swift; path = Foo.swift; sourceTree = \"<group>\"; \x7d;\n/* End PBXFileReference section */\n228C21072ED56D9100F0ACD5 /* Models */ = \x7bisa = PBXGroup;children = (a);\n0B1A00271A2A3A4A5A6A7A8A /* Sources */ = \x7bisa = PBXSourcesBuildPhase;files = (b);\n").data := by
    unfold buildFileStep
    rw [(by decide : ("q\n/* End PBXBuildFile section */\n\t\t000000000000000000000000 /* Foo.swift */ = \x7bisa = PBXFileReference; lastKnownFileType = sourcecode.swift; path = Foo.swift; sourceTree = \"<group>\"; \x7d;\n/* End PBXFileReference section */\nmid\n\t\t000000000000000000000000 /* Foo.swift */ = \x7bisa = PBXFileReference; lastKnownFileType = sourcecode.swift; path = Foo.swift; sourceTree = \"<group>\"; \x7d;\n/* End PBXFileReference section */\n228C21072ED56D9100F0ACD5 /* Models */ = \x7bisa = PBXGroup;children = (a);\n0B1A00271A2A3A4A5A6A7A8A /* Sources */ = \x7bisa = PBXSourcesBuildPhase;files = (b);\n").data
      = "q\n".data ++ (endBuildFileMarker
        ++ ("\n\t\t000000000000000000000000 /* Foo.swift */ = \x7bisa = PBXFileReference; lastKnownFileType = sourcecode.swift; path = Foo.swift; sourceTree = \"<group>\"; \x7d;\n/* End PBXFileReference section */\nmid\n\t\t000000000000000000000000 /* Foo.swift */ = \x7bisa = PBXFileReference; lastKnownFileType = sourcecode.swift; path = Foo.swift; sourceTree = \"<group>\"; \x7d;\n/* End PBXFileReference section */\n228C21072ED56D9100F0ACD5 /* Models */ = \x7bisa = PBXGroup;children = (a);\n0B1A00271A2A3A4A5A6A7A8A /* Sources */ = \x7bisa = PBXSourcesBuildPhase;files = (b);\n").data))]
    rw [replaceAll_skip _ _ _ _ (by decide), replaceAll_head _ _ _ (by decide),
      replaceAll_of_not_sub _ _ _ (by decide)]
    decide
  have h34 : sourcesStep "Foo.swift".data (generate_id fun _ => 0)
      (groupStep "228C21072ED56D9100F0ACD5".data "Models".data "Foo.swift".data
        (generate_id fun _ => 0)
        ("q\n\t\t000000000000000000000000 /* Foo.swift in Sources */ = \x7bisa = PBXBuildFile; fileRef = 000000000000000000000000 /* Foo.swift */; \x7d;\n/* End PBXBuildFile section */\n\t\t000000000000000000000000 /* Foo.swift */ = \x7bisa = PBXFileReference; lastKnownFileType = sourcecode.swift; path = Foo.swift; sourceTree = \"<group>\"; \x7d;\n/* End PBXFileReference section */\nmid\n\t\t000000000000000000000000 /* Foo.swift */ = \x7bisa = PBXFileReference; lastKnownFileType = sourcecode.swift; path = Foo.swift; sourceTree = \"<group>\"; \x7d;\n/* End PBXFileReference section */\n228C21072ED56D9100F0ACD5 /* Models */ = \x7bisa = PBXGroup;children = (a);\n0B1A00271A2A3A4A5A6A7A8A /* Sources */ = \x7bisa = PBXSourcesBuildPhase;files = (b);\n").data)
      = ("q\n\t\t000000000000000000000000 /* Foo.swift in Sources */ = \x7bisa = PBXBuildFile; fileRef = 000000000000000000000000 /* Foo.swift */; \x7d;\n/* End PBXBuildFile section */\n\t\t000000000000000000000000 /* Foo.swift */ = \x7bisa = PBXFileReference; lastKnownFileType = sourcecode.swift; path = Foo.swift; sourceTree = \"<group>\"; \x7d;\n/* End PBXFileReference section */\nmid\n\t\t000000000000000000000000 /* Foo.swift */ = \x7bisa = PBXFileReference; lastKnownFileType = sourcecode.swift; path = Foo.swift; sourceTree = \"<group>\"; \x7d;\n/* End PBXFileReference section */\n228C21072ED56D9100F0ACD5 /* Models */ = \x7bisa = PBXGroup;children = (a\n\t\t\t\t000000000000000000000000 /* Foo.swift */,\n\t\t\t);\n0B1A00271A2A3A4A5A6A7A8A /* Sources */ = \x7bisa = PBXSourcesBuildPhase;files = (b\n\t\t\t\t000000000000000000000000 /* Foo.swift in Sources */,\n\t\t\t);\n").data := by
    decide
  have hwm : writtenManifest
      (add_file_to_project (fun _ => 0) "Foo.swift".data "Models".data cxManifest)
      cxManifest
      = sourcesStep "Foo.swift".data (generate_id fun _ => 0)
          (groupStep "228C21072ED56D9100F0ACD5".data "Models".data "Foo.swift".data
            (generate_id fun _ => 0)
            (buildFileStep "Foo.swift".data (generate_id fun _ => 0)
              (generate_id fun _ => 0)
              (fileRefStep "Foo.swift".data (generate_id fun _ => 0) cxManifest))) := by
    rw [writtenManifest, hrun]
    rfl
  refine ⟨by decide, by decide, by decide, by decide, by decide, by rw [hrun], ?_⟩
  rw [hwm, h1, h2, h34]
  rw [(by decide : ("q\n\t\t000000000000000000000000 /* Foo.swift in Sources */ = \x7bisa = PBXBuildFile; fileRef = 000000000000000000000000 /* Foo.swift */; \x7d;\n/* End PBXBuildFile section */\n\t\t000000000000000000000000 /* Foo.swift */ = \x7bisa = PBXFileReference; lastKnownFileType = sourcecode.swift; path = Foo.swift; sourceTree = \"<group>\"; \x7d;\n/* End PBXFileReference section */\nmid\n\t\t000000000000000000000000 /* Foo.swift */ = \x7bisa = PBXFileReference; lastKnownFileType = sourcecode.swift; path = Foo.swift; sourceTree = \"<group>\"; \x7d;\n/* End PBXFileReference section */\n228C21072ED56D9100F0ACD5 /* Models */ = \x7bisa = PBXGroup;children = (a\n\t\t\t\t000000000000000000000000 /* Foo.swift */,\n\t\t\t);\n0B1A00271A2A3A4A5A6A7A8A /* Sources */ = \x7bisa = PBXSourcesBuildPhase;files = (b\n\t\t\t\t000000000000000000000000 /* Foo.swift in Sources */,\n\t\t\t);\n").data
    = ("q\n\t\t000000000000000000000000 /* Foo.swift in Sources */ = \x7bisa = PBXBuildFile; fileRef = 000000000000000000000000 /* Foo.swift */; \x7d;\n/* End PBXBuildFile section */\n").data
      ++ (fileref_entry "Foo.swift".data (generate_id fun _ => 0)
        ++ (("/* End PBXFileReference section */\nmid\n").data
          ++ (fileref_entry "Foo.swift".data (generate_id fun _ => 0)
            ++ ("/* End PBXFileReference section */\n228C21072ED56D9100F0ACD5 /* Models */ = \x7bisa = PBXGroup;children = (a\n\t\t\t\t000000000000000000000000 /* Foo.swift */,\n\t\t\t);\n0B1A00271A2A3A4A5A6A7A8A /* Sources */ = \x7bisa = PBXSourcesBuildPhase;files = (b\n\t\t\t\t000000000000000000000000 /* Foo.swift in Sources */,\n\t\t\t);\n").data))))]
  rw [countOccur_skip _ _ _ (by decide), countOccur_head _ _ (fileref_entry_ne_nil _ _),
    countOccur_skip _ _ _ (by decide), countOccur_head _ _ (fileref_entry_ne_nil _ _),
    countOccur_of_not_sub _ _ (by decide)]

end Sortir
